import Mathlib

/-!
# Ambulance tracker backend

A shallow embedding of the coordination core of the backend:

* `backend/index.js`            : `AmbulanceTrackingState` (toggle, getStatus, isEnabled)
* `backend/routes/ambulance.js` : `PUT /api/ambulance`, `PUT /api/ambulance/status`
* `backend/routes/chat.js`      : `GET /api/chat/conversation/:userId`,
                                  `GET /api/chat/:userId/:targetId`, `POST /api/chat`,
                                  `DELETE /api/chat/:id`,
                                  `DELETE /api/chat/clear/:userId/:targetId`
* `backend/index.js`            : the Socket.IO connection handler, the tracking endpoints
                                  `POST /api/ambulance/tracking/toggle` and
                                  `GET /api/ambulance/tracking/status`, and the order in
                                  which the middleware and routes are registered

Handlers are functions from the request, the application registry, the database and the
answers of the outside world (clock, database failures, reverse geocoder) to an `Outcome`:
the HTTP answer, the database afterwards, the push events emitted and the queries issued.

The statements are sent with `db.query` of the `mysql2` pool of `backend/database.js`, which
writes the bound parameters into the text of the statement before it is sent: an array as
the comma list of its elements and an object as the list of its `key = value` pairs.
-/

namespace AmbulanceTracker

/-! ## JavaScript values -/

/-- The values that are neither arrays nor objects, as they occur as elements of an array
and as property values of an object. -/
inductive JsScalar where
  | null
  | bool (b : Bool)
  | num (n : Int)
  | str (s : String)
  deriving DecidableEq, Repr

/-- Values found in a parsed JSON body or socket payload. `undefined` stands for an absent
field. Numbers are carried around unchanged by the handlers modelled here, so an integer
stands for them. An array is given by its elements and an object by its properties in
order; elements and property values that are themselves arrays or objects are not
represented. -/
inductive JsVal where
  | undefined
  | null
  | bool (b : Bool)
  | num (n : Int)
  | str (s : String)
  | array (items : List JsScalar)
  | object (fields : List (String × JsScalar))
  deriving DecidableEq, Repr

/-- A scalar as a value. -/
def JsScalar.toJsVal : JsScalar → JsVal
  | .null => .null
  | .bool b => .bool b
  | .num n => .num n
  | .str s => .str s

/-- The text a text column holds after a scalar is assigned to it, `none` for NULL: a number
is stored as its decimal writing and a boolean as `1` or `0`. -/
def JsScalar.text : JsScalar → Option String
  | .null => none
  | .bool b => some (if b then "1" else "0")
  | .num n => some (toString n)
  | .str s => some s

namespace JsVal

/-- The test `v == null`: true for `null` and `undefined` only. -/
def isNullish : JsVal → Bool
  | undefined => true
  | null => true
  | _ => false

/-- The conversion ToBoolean used by `v ? a : b`. -/
def truthy : JsVal → Bool
  | undefined => false
  | null => false
  | bool b => b
  | num n => n != 0
  | str s => s != ""
  | array _ => true
  | object _ => true

/-- The test `v === true`. -/
def strictEqTrue : JsVal → Bool
  | bool true => true
  | _ => false

/-- Whether a value is a boolean, a number or a string. -/
def isScalar : JsVal → Bool
  | bool _ => true
  | num _ => true
  | str _ => true
  | _ => false

end JsVal

/-! ## Tracking state (`backend/index.js`, class `AmbulanceTrackingState`) -/

/-- Fields of the class `AmbulanceTrackingState`. Times are milliseconds of `Date.now()`. -/
structure AmbulanceTrackingState where
  isActive : Bool
  lastToggleTime : Nat
  deriving DecidableEq, Repr

/-- The object returned by `getStatus()`. -/
structure TrackingStatus where
  trackingActive : Bool
  lastToggleTime : Nat
  timestamp : Nat
  deriving DecidableEq, Repr

namespace AmbulanceTrackingState

/-- The constructor: tracking starts active. -/
def create (now : Nat) : AmbulanceTrackingState :=
  { isActive := true, lastToggleTime := now }

/-- The method `toggle(enabled)`: `this.isActive = enabled === true`,
`this.lastToggleTime = Date.now()`, `return this.isActive`. -/
def toggle (_s : AmbulanceTrackingState) (enabled : JsVal) (now : Nat) :
    AmbulanceTrackingState × Bool :=
  let s' : AmbulanceTrackingState := { isActive := enabled.strictEqTrue, lastToggleTime := now }
  (s', s'.isActive)

/-- The method `getStatus()`; `now` is the clock read by `new Date()`. -/
def getStatus (s : AmbulanceTrackingState) (now : Nat) : TrackingStatus :=
  { trackingActive := s.isActive, lastToggleTime := s.lastToggleTime, timestamp := now }

/-- The method `isEnabled()`. -/
def isEnabled (s : AmbulanceTrackingState) : Bool :=
  s.isActive

end AmbulanceTrackingState

/-! ## Database -/

/-- A row of `ambulance_location`. `isBusy` is the stored tinyint, `address_text` is nullable. -/
structure LocationRow where
  latitude : JsVal
  longitude : JsVal
  isBusy : Nat
  address_text : Option String
  updatedAt : Nat
  deriving DecidableEq, Repr

/-- A row of `messages`; `none` is SQL NULL. -/
structure Message where
  id : Nat
  senderId : Int
  receiverId : Int
  content : Option String
  imageUrl : Option String
  latitude : Option JsVal
  longitude : Option JsVal
  emoticon_code : Option String
  createdAt : Nat
  deriving DecidableEq, Repr

/-- A row of `users`, with the two columns the chat queries read. -/
structure User where
  id : Int
  fullName : String
  deriving DecidableEq, Repr

/-- The tables the modelled handlers touch. `location` is the row with `id = 1` of
`ambulance_location`, if there is one. -/
structure Db where
  location : Option LocationRow
  messages : List Message
  users : List User
  deriving DecidableEq, Repr

/-- The statements sent with `db.query` by the modelled handlers. -/
inductive Query where
  | selectLocationId
  | insertLocation (latitude longitude : JsVal) (busyValue : Nat)
  | updateLocationWithBusy (latitude longitude : JsVal) (busyValue : Nat)
  | updateLocationCoords (latitude longitude : JsVal)
  | updateAddressText (addressText : String)
  | updateIsBusy (busyValue : Nat)
  | selectLocation
  | selectConversations (userId : Int)
  | selectChat (userId targetId : Int)
  | insertMessage (senderId receiverId : Int) (content imageUrl : Option String)
      (latitude longitude : Option JsVal) (emoticonCode : Option String)
  | selectMessage (id : Nat)
  | deleteMessage (id : String)
  | clearConversation (userId targetId : Int)
  deriving DecidableEq, Repr

/-- Answer of the reverse geocoder: the call throws (network error, timeout, bad answer), or
it returns with `data.display_name` a string or absent. -/
inductive GeoResult where
  | failed
  | ok (displayName : Option String)
  deriving DecidableEq, Repr

/-- What the outside world answers during one request: the clock of the process, the value
of SQL `NOW()`, whether the `k`-th statement of the request (from 0) throws, and the answer
of the reverse geocoder. A statement that throws leaves the tables as they were. A statement
throws, whatever the server, when the text the driver builds from its parameters is rejected:
so it is for an array parameter with no or with several elements, for an object parameter
with several properties in a `VALUES` list, and for a property that names no column.

The table definitions are not part of the sources read here, so what depends on them is
answered by the world as well. `nextMessageId` is the auto-increment counter of `messages`.
`compared row key value` is the value of the expression `key = value` that an object
parameter puts in the place of a value (`JsVal.null` for NULL), where `row` is the location
row as the expression finds it, or `none` in an `INSERT`. `assigned row column value` is the
location row after the assignment of a column other than `latitude`, `longitude` and
`address_text`, or `none` when the row is no longer the one with `id = 1`. -/
structure World where
  now : Nat
  dbNow : Nat
  dbFail : Nat → Bool
  geo : GeoResult
  nextMessageId : Nat
  compared : Option LocationRow → String → JsScalar → JsVal
  assigned : LocationRow → String → JsScalar → Option LocationRow

/-- The value a column receives from one bound parameter. The driver writes `null` and
`undefined` as NULL and a boolean, number or string as one literal. It writes an array as the
comma list of its elements, which is one value when there is one element. It writes an
object as the list of its `key = value` pairs, of which the first stands in the place of
the value, as a comparison. For the parameters with which the statement throws (an array of
no or of several elements, an object without properties) the value plays no part and is
given as NULL. -/
def World.written (w : World) (row : Option LocationRow) (v : JsVal) : JsVal :=
  match v with
  | .undefined => .null
  | .array [a] => a.toJsVal
  | .array _ => .null
  | .object ((key, value) :: _) => w.compared row key value
  | .object [] => .null
  | v => v

/-- The pairs of an object parameter after the first: in the `SET` list of an `UPDATE` each
of them is one more assignment. -/
def JsVal.moreAssignments : JsVal → List (String × JsScalar)
  | .object (_ :: rest) => rest
  | _ => []

/-- The assignment `column = value` on the location row. -/
def World.assign (w : World) (row : LocationRow) (column : String) (value : JsScalar) :
    Option LocationRow :=
  if column = "latitude" then some { row with latitude := value.toJsVal }
  else if column = "longitude" then some { row with longitude := value.toJsVal }
  else if column = "address_text" then some { row with address_text := value.text }
  else w.assigned row column value

/-- A list of assignments on the location row, from left to right. -/
def World.assignAll (w : World) (row : LocationRow) (pairs : List (String × JsScalar)) :
    Option LocationRow :=
  pairs.foldl (fun r kv => r.bind (fun x => w.assign x kv.1 kv.2)) (some row)

/-- The assignments that `latitude = ?` puts in the `SET` list for a bound parameter. -/
def World.setLatitude (w : World) (row : LocationRow) (v : JsVal) : Option LocationRow :=
  w.assignAll { row with latitude := w.written (some row) v } v.moreAssignments

/-- The assignments that `longitude = ?` puts in the `SET` list for a bound parameter. -/
def World.setLongitude (w : World) (row : LocationRow) (v : JsVal) : Option LocationRow :=
  w.assignAll { row with longitude := w.written (some row) v } v.moreAssignments

/-- The value a nullable column of `messages` receives from a parameter, `none` for NULL. -/
def World.column (w : World) (v : Option JsVal) : Option JsVal :=
  match v with
  | none => none
  | some x =>
      match w.written none x with
      | .null => none
      | .undefined => none
      | y => some y

/-- The `insertId` of an `INSERT INTO messages`: the auto-increment counter of the table,
which is above every id stored and is not lowered when rows are deleted. -/
def insertIdOf (counter : Nat) (messages : List Message) : Nat :=
  max counter ((messages.map (fun m => m.id)).foldr max 0 + 1)

/-- The `WHERE` clause of the clearing `DELETE`,
`(senderId = ? AND receiverId = ?) OR (senderId = ? AND receiverId = ?)`, with the parameters
`userId, targetId, targetId, userId`. -/
def clearMatches (userId targetId : Int) (m : Message) : Bool :=
  (decide (m.senderId = userId) && decide (m.receiverId = targetId)) ||
    (decide (m.senderId = targetId) && decide (m.receiverId = userId))

/-- The `affectedRows` of the clearing `DELETE`: the number of rows its `WHERE` selects. -/
def clearAffectedRows (userId targetId : Int) (messages : List Message) : Nat :=
  (messages.filter (clearMatches userId targetId)).length

/-- The comparison `id = ?` of `DELETE FROM messages WHERE id = ?` with the path segment as
parameter: a string of decimal digits is compared as the number it writes. The conversion
the database applies to other strings is not modelled; they select no row here. -/
def idMatches (param : String) (id : Nat) : Bool :=
  param.data.all Char.isDigit && !param.data.isEmpty &&
    param.data.foldl (fun n c => 10 * n + (c.toNat - 48)) 0 == id

/-- Effect of a successful statement on the tables; `w.dbNow` is the value of SQL `NOW()`.
The `INSERT` names no `address_text`, so the new row has it NULL; an `UPDATE ... WHERE id = 1`
with no such row changes nothing. The `INSERT INTO messages` names no `createdAt`, which the
table fills with the current time. The coordinates are bound as received, so the columns
receive what the driver writes for them (`World.written`, `World.setLatitude`). -/
def Query.run (q : Query) (w : World) (db : Db) : Db :=
  match q with
  | .insertLocation lat lon busy =>
      let row : LocationRow :=
        { latitude := w.written none lat, longitude := w.written none lon, isBusy := busy,
          address_text := none, updatedAt := w.dbNow }
      { db with location := some row }
  | .updateLocationWithBusy lat lon busy =>
      { db with location := db.location.bind (fun r =>
          ((w.setLatitude r lat).bind (fun r1 => w.setLongitude r1 lon)).map (fun r2 =>
            { r2 with isBusy := busy, updatedAt := w.dbNow })) }
  | .updateLocationCoords lat lon =>
      { db with location := db.location.bind (fun r =>
          ((w.setLatitude r lat).bind (fun r1 => w.setLongitude r1 lon)).map (fun r2 =>
            { r2 with updatedAt := w.dbNow })) }
  | .updateAddressText a =>
      { db with location := db.location.map (fun r => { r with address_text := some a }) }
  | .updateIsBusy busy =>
      { db with location := db.location.map (fun r =>
          { r with isBusy := busy, updatedAt := w.dbNow }) }
  | .selectLocationId => db
  | .selectLocation => db
  | .selectConversations _ => db
  | .selectChat _ _ => db
  | .insertMessage sid rid content imageUrl lat lon emoticon =>
      let row : Message :=
        { id := insertIdOf w.nextMessageId db.messages, senderId := sid, receiverId := rid,
          content := content, imageUrl := imageUrl, latitude := w.column lat,
          longitude := w.column lon, emoticon_code := emoticon, createdAt := w.dbNow }
      { db with messages := db.messages ++ [row] }
  | .selectMessage _ => db
  | .deleteMessage id =>
      { db with messages := db.messages.filter (fun m => !idMatches id m.id) }
  | .clearConversation userId targetId =>
      { db with messages := db.messages.filter (fun m => !clearMatches userId targetId m) }

/-! ## Push events and HTTP answers -/

/-- Where an event goes: `io.emit` (everyone), `io.to(room).emit`, or `socket.emit`. -/
inductive Target where
  | everyone
  | room (key : String)
  | sender
  deriving DecidableEq, Repr

/-- The payload of `ambulanceLocationUpdated`. -/
structure LocationPayload where
  latitude : JsVal
  longitude : JsVal
  addressText : Option String
  isBusy : Bool
  updatedAt : Nat
  trackingActive : Bool
  deriving DecidableEq, Repr

/-- Payloads of the push events. -/
inductive Payload where
  | location (p : LocationPayload)
  | tracking (s : TrackingStatus)
  | message (newMsg : Option Message)
  | messageDeleted (id : String)
  | conversationCleared (userId targetId : Int)
  | toggleConfirm (success trackingActive : Bool) (status : Option TrackingStatus)
  deriving DecidableEq, Repr

/-- One call of `emit`. -/
structure Emit where
  target : Target
  event : String
  payload : Payload
  deriving DecidableEq, Repr

/-- An entry of the conversation list sent by `GET /chat/conversation/:userId`. -/
structure Conversation where
  partnerId : Int
  partnerName : String
  content : Option String
  imageUrl : Option String
  latitude : Option JsVal
  longitude : Option JsVal
  emoticonCode : Option String
  lastTimestamp : Nat
  deriving DecidableEq, Repr

/-- A row sent by `GET /chat/:userId/:targetId`: the message and its direction tag. -/
structure ChatRow where
  message : Message
  direction : String
  deriving DecidableEq, Repr

/-- JSON bodies of the answers. -/
inductive Body where
  | error (error : String)
  | locked (error : String) (trackingActive : Bool) (message : String)
  | locationUpdated (trackingActive : Bool) (latitude longitude : JsVal)
      (addressText : Option String) (isBusy : Bool)
  | statusUpdated (isBusy trackingActive : Bool) (message : String)
  | conversations (list : List Conversation)
  | chat (rows : List ChatRow)
  | messageSent (message : Option Message)
  | success
  | cleared (message : String) (deletedCount : Nat)
  | toggled (ambulanceTrackingActive : Bool) (message : String) (status : TrackingStatus)
  | trackingStatus (ambulanceTrackingActive : Bool) (status : TrackingStatus)
  | uncaught
  deriving DecidableEq, Repr

/-- What a handler did: the answer, the tables afterwards, the events emitted, the statements
sent (in order, the failing one included) and the number of reverse-geocode calls. -/
structure Outcome where
  status : Nat
  body : Body
  db : Db
  events : List Emit
  queries : List Query
  geocodeCalls : Nat
  deriving DecidableEq, Repr

/-- The application registry read with `req.app.get`: `index.js` stores the Socket.IO server
under `io` and the tracking state under `ambulanceTracking`. -/
structure App where
  io : Bool
  ambulanceTracking : Option AmbulanceTrackingState
  deriving DecidableEq, Repr

/-- The registry as `index.js` fills it (`app.set` with `io` and the tracking state). -/
def App.ofIndex (s : AmbulanceTrackingState) : App :=
  { io := true, ambulanceTracking := some s }

/-- The expression `ambulanceTracking ? ambulanceTracking.isEnabled() : false`. -/
def App.trackingActive (app : App) : Bool :=
  match app.ambulanceTracking with
  | some s => s.isEnabled
  | none => false

/-! ## `PUT /api/ambulance` and `PUT /api/ambulance/status` -/

/-- The parts of a `PUT /api/ambulance` request the handler reads. -/
structure LocationRequest where
  xAdminUpdate : Option String
  latitude : JsVal
  longitude : JsVal
  isBusy : JsVal
  deriving DecidableEq, Repr

/-- The expression `isBusy != null ? (isBusy ? 1 : 0) : 0`. -/
def busyValueOf (isBusy : JsVal) : Nat :=
  if !isBusy.isNullish then (if isBusy.truthy then 1 else 0) else 0

/-- The statement the upsert sends after the existence check. -/
def upsertQuery (existing : Bool) (req : LocationRequest) : Query :=
  if !existing then
    .insertLocation req.latitude req.longitude (busyValueOf req.isBusy)
  else if !req.isBusy.isNullish then
    .updateLocationWithBusy req.latitude req.longitude (busyValueOf req.isBusy)
  else
    .updateLocationCoords req.latitude req.longitude

/-- The expression `geoResp.data.display_name || null`. -/
def displayNameOrNull (displayName : Option String) : Option String :=
  match displayName with
  | some s => if s != "" then some s else none
  | none => none

/-- The handler `router.put('/')` of `routes/ambulance.js`. The `try` around the registry
read only calls `isEnabled()`, which reads a field, so its 500 answer is never produced and has
no branch here. The address write is inside the inner `try` of the geocoder: when it throws
(`w.dbFail 2`), `addressText` keeps the resolved name and the tables keep the old address. -/
def putAmbulance (app : App) (req : LocationRequest) (db : Db) (w : World) : Outcome :=
  if req.latitude.isNullish || req.longitude.isNullish then
    { status := 400, body := .error "Latitude and longitude are required", db := db,
      events := [], queries := [], geocodeCalls := 0 }
  else
    let trackingActive := app.trackingActive
    let isAdminManualUpdate := decide (req.xAdminUpdate = some "true")
    if !trackingActive && !isAdminManualUpdate then
      { status := 423,
        body := .locked "Ambulance tracking is currently disabled" false
          "Please enable tracking first before updating location",
        db := db, events := [], queries := [], geocodeCalls := 0 }
    else if w.dbFail 0 then
      { status := 500, body := .error "Failed to update location", db := db,
        events := [], queries := [.selectLocationId], geocodeCalls := 0 }
    else
      let existing := db.location.isSome
      let busyValue := busyValueOf req.isBusy
      let upsert := upsertQuery existing req
      if w.dbFail 1 then
        { status := 500, body := .error "Failed to update location", db := db,
          events := [], queries := [.selectLocationId, upsert], geocodeCalls := 0 }
      else
        let db1 := upsert.run w db
        -- the inner try around the reverse geocoder and the address write
        let addressText : Option String :=
          match w.geo with
          | .failed => none
          | .ok displayName => displayNameOrNull displayName
        let addressWrite : List Query :=
          match addressText with
          | some a => [.updateAddressText a]
          | none => []
        let db2 : Db :=
          match addressText with
          | some a => if w.dbFail 2 then db1 else (Query.updateAddressText a).run w db1
          | none => db1
        let socketPayload : LocationPayload :=
          { latitude := req.latitude, longitude := req.longitude, addressText := addressText,
            isBusy := decide (busyValue = 1), updatedAt := w.now,
            trackingActive := trackingActive }
        let events : List Emit :=
          if app.io then [⟨.everyone, "ambulanceLocationUpdated", .location socketPayload⟩]
          else []
        { status := 200,
          body := .locationUpdated trackingActive req.latitude req.longitude addressText
            (decide (busyValue = 1)),
          db := db2, events := events,
          queries := [.selectLocationId, upsert] ++ addressWrite, geocodeCalls := 1 }

/-- The text `Status changed to ...` of the status answer. -/
def statusMessage (busyValue : Nat) : String :=
  if busyValue = 1 then "Status changed to busy" else "Status changed to available"

/-- The handler `router.put('/status')` of `routes/ambulance.js`; `isBusy` is the body field. -/
def putAmbulanceStatus (app : App) (isBusy : JsVal) (db : Db) (w : World) : Outcome :=
  if isBusy.isNullish then
    { status := 400, body := .error "isBusy status is required", db := db,
      events := [], queries := [], geocodeCalls := 0 }
  else
    let trackingActive := app.trackingActive
    let busyValue : Nat := if isBusy.truthy then 1 else 0
    if w.dbFail 0 then
      { status := 500, body := .error "Failed to update status", db := db,
        events := [], queries := [.updateIsBusy busyValue], geocodeCalls := 0 }
    else
      let db1 := (Query.updateIsBusy busyValue).run w db
      if w.dbFail 1 then
        { status := 500, body := .error "Failed to update status", db := db1,
          events := [], queries := [.updateIsBusy busyValue, .selectLocation],
          geocodeCalls := 0 }
      else
        let events : List Emit :=
          match db1.location with
          | some row =>
              if app.io then
                [⟨.everyone, "ambulanceLocationUpdated", .location
                  { latitude := row.latitude, longitude := row.longitude,
                    addressText := row.address_text, isBusy := decide (row.isBusy = 1),
                    updatedAt := w.now, trackingActive := trackingActive }⟩]
              else []
          | none => []
        { status := 200,
          body := .statusUpdated (decide (busyValue = 1)) trackingActive
            (statusMessage busyValue),
          db := db1, events := events,
          queries := [.updateIsBusy busyValue, .selectLocation], geocodeCalls := 0 }

/-! ## Chat queries (`backend/routes/chat.js`) -/

/-- The column `CASE WHEN senderId = ? THEN receiverId ELSE senderId END AS partnerId`. -/
def partnerOf (userId : Int) (m : Message) : Int :=
  if m.senderId = userId then m.receiverId else m.senderId

/-- The filter `WHERE senderId = ? OR receiverId = ?`. -/
def involves (userId : Int) (m : Message) : Bool :=
  decide (m.senderId = userId) || decide (m.receiverId = userId)

/-- A row of the derived table `c`: one per message that involves the user. -/
structure LastRow where
  partnerId : Int
  lastContent : Option String
  lastImageUrl : Option String
  lastLat : Option JsVal
  lastLng : Option JsVal
  lastEmoticon : Option String
  lastTimestamp : Nat
  deriving DecidableEq, Repr

/-- The derived table `c` of the conversation query. -/
def derivedC (userId : Int) (messages : List Message) : List LastRow :=
  (messages.filter (involves userId)).map fun m =>
    { partnerId := partnerOf userId m, lastContent := m.content, lastImageUrl := m.imageUrl,
      lastLat := m.latitude, lastLng := m.longitude, lastEmoticon := m.emoticon_code,
      lastTimestamp := m.createdAt }

/-- A row of the derived table `g`: a partner and `MAX(createdAt)` of its group. -/
structure GroupRow where
  partnerId : Int
  maxTs : Nat
  deriving DecidableEq, Repr

/-- The aggregate `MAX(createdAt)` over a group of rows (groups are never empty). -/
def maxCreatedAt (group : List Message) : Nat :=
  (group.map (fun m => m.createdAt)).foldr max 0

/-- The derived table `g`: `GROUP BY partnerId` over the messages that involve the user, one
row per distinct partner id. -/
def derivedG (userId : Int) (messages : List Message) : List GroupRow :=
  let rows := messages.filter (involves userId)
  ((rows.map (partnerOf userId)).dedup).map fun p =>
    { partnerId := p,
      maxTs := maxCreatedAt (rows.filter fun m => decide (partnerOf userId m = p)) }

/-- The order of `ORDER BY c.lastTimestamp DESC`. -/
def newerFirst (a b : Conversation) : Prop :=
  b.lastTimestamp ≤ a.lastTimestamp

instance : DecidableRel newerFirst :=
  fun a b => inferInstanceAs (Decidable (b.lastTimestamp ≤ a.lastTimestamp))

/-- The rows of the two joins before ordering: each row of `c` with each row of `g` that has
its partner id and its timestamp, with each `users` row of that id. The field names are the
aliases of the outer `SELECT`, which are the names `rows.map` copies into the answer. -/
def joinedRows (userId : Int) (db : Db) : List Conversation :=
  (derivedC userId db.messages).flatMap fun c =>
    ((derivedG userId db.messages).filter fun g =>
        decide (c.partnerId = g.partnerId) && decide (c.lastTimestamp = g.maxTs)).flatMap fun _ =>
      (db.users.filter fun u => decide (u.id = c.partnerId)).map fun u =>
        { partnerId := c.partnerId, partnerName := u.fullName, content := c.lastContent,
          imageUrl := c.lastImageUrl, latitude := c.lastLat, longitude := c.lastLng,
          emoticonCode := c.lastEmoticon, lastTimestamp := c.lastTimestamp }

/-- The conversation query of `GET /chat/conversation/:userId` with `rows.map` applied: the
joined rows in the order of `ORDER BY c.lastTimestamp DESC` (rows of equal timestamp keep
their relative order). -/
def conversationList (userId : Int) (db : Db) : List Conversation :=
  (joinedRows userId db).insertionSort newerFirst

/-- The handler `router.get('/conversation/:userId')`; `userId` is the result of `parseInt`,
`none` for `NaN`. -/
def getConversation (userId : Option Int) (db : Db) (w : World) : Outcome :=
  match userId with
  | none =>
      { status := 400, body := .error "Invalid userId", db := db, events := [], queries := [],
        geocodeCalls := 0 }
  | some u =>
      if w.dbFail 0 then
        { status := 500, body := .error "Failed to fetch conversations", db := db,
          events := [], queries := [.selectConversations u], geocodeCalls := 0 }
      else
        { status := 200, body := .conversations (conversationList u db), db := db,
          events := [], queries := [.selectConversations u], geocodeCalls := 0 }

/-- The filter `(senderId = ? AND receiverId = ?) OR (senderId = ? AND receiverId = ?)` with
the parameters `userId, targetId, targetId, userId`. -/
def betweenPair (userId targetId : Int) (m : Message) : Bool :=
  (decide (m.senderId = userId) && decide (m.receiverId = targetId)) ||
    (decide (m.senderId = targetId) && decide (m.receiverId = userId))

/-- The order of `ORDER BY m.createdAt ASC`. -/
def olderFirst (a b : Message) : Prop :=
  a.createdAt ≤ b.createdAt

instance : DecidableRel olderFirst :=
  fun a b => inferInstanceAs (Decidable (a.createdAt ≤ b.createdAt))

/-- The column `CASE WHEN m.senderId = ? THEN 'outgoing' ELSE 'incoming' END AS direction`. -/
def directionOf (userId : Int) (m : Message) : String :=
  if m.senderId = userId then "outgoing" else "incoming"

/-- The query of `GET /chat/:userId/:targetId`. -/
def chatHistory (userId targetId : Int) (messages : List Message) : List ChatRow :=
  ((messages.filter (betweenPair userId targetId)).insertionSort olderFirst).map fun m =>
    { message := m, direction := directionOf userId m }

/-- The handler `router.get('/:userId/:targetId')`; the ids are the results of `parseInt`,
`none` for `NaN`. -/
def getChat (userId targetId : Option Int) (db : Db) (w : World) : Outcome :=
  match userId, targetId with
  | some u, some t =>
      if w.dbFail 0 then
        { status := 500, body := .error "Failed to fetch chat", db := db, events := [],
          queries := [.selectChat u t], geocodeCalls := 0 }
      else
        { status := 200, body := .chat (chatHistory u t db.messages), db := db, events := [],
          queries := [.selectChat u t], geocodeCalls := 0 }
  | _, _ =>
      { status := 400, body := .error "Invalid user IDs", db := db, events := [], queries := [],
        geocodeCalls := 0 }

/-! ## Chat writes (`backend/routes/chat.js`) -/

/-- The characters `String.prototype.trim` strips: the WhiteSpace and LineTerminator code
points of ECMAScript. -/
def isJsWhiteSpace (c : Char) : Bool :=
  let n := c.toNat
  n == 0x09 || n == 0x0A || n == 0x0B || n == 0x0C || n == 0x0D || n == 0x20 || n == 0xA0 ||
    n == 0x1680 || (decide (0x2000 ≤ n) && decide (n ≤ 0x200A)) || n == 0x2028 ||
    n == 0x2029 || n == 0x202F || n == 0x205F || n == 0x3000 || n == 0xFEFF

/-- The method `trim()` of a string. -/
def jsTrim (s : String) : String :=
  ⟨((s.data.dropWhile isJsWhiteSpace).reverse.dropWhile isJsWhiteSpace).reverse⟩

/-- The expression `typeof v === 'string' && v.trim() !== ''`. -/
def JsVal.isNonBlankString (v : JsVal) : Bool :=
  match v with
  | .str s => jsTrim s != ""
  | _ => false

/-- The call `v.trim()`, made by the handler on strings only. -/
def JsVal.trim (v : JsVal) : String :=
  match v with
  | .str s => jsTrim s
  | _ => ""

/-- The expression `String(id)` on an integer: its decimal writing (JavaScript writes an
exponent from `1e21` on, far above any row id). -/
def roomKey (id : Int) : String :=
  toString id

/-- The value written by the longest run of decimal digits at the head of the characters,
`none` when the first character is no digit. -/
def leadingDigits (cs : List Char) : Option Nat :=
  match cs.takeWhile Char.isDigit with
  | [] => none
  | ds => some (ds.foldl (fun n c => 10 * n + (c.toNat - 48)) 0)

/-- The function `parseInt(text, 10)` on a string: white space is skipped, a sign is read,
then the longest run of decimal digits; what follows is ignored. `none` is `NaN`. -/
def parseIntChars (cs : List Char) : Option Int :=
  match cs.dropWhile isJsWhiteSpace with
  | '-' :: rest => (leadingDigits rest).map fun n => - (n : Int)
  | '+' :: rest => (leadingDigits rest).map fun n => (n : Int)
  | rest => (leadingDigits rest).map fun n => (n : Int)

/-- The text of an element in `Array.prototype.join`: `null` gives the empty text. -/
def JsScalar.joined : JsScalar → String
  | .null => ""
  | .bool b => if b then "true" else "false"
  | .num n => toString n
  | .str s => s

/-- The call `parseInt(v, 10)`, `none` for `NaN`. The argument is first converted to a
string: a number to its decimal writing, an array to its elements joined with commas, an
object to `[object Object]`, and `undefined`, `null`, `true` and `false` to their names. The
numbers of the model are integers, written without exponent. -/
def parseInt10 (v : JsVal) : Option Int :=
  match v with
  | .num n => some n
  | .str s => parseIntChars s.data
  | .array items => parseIntChars (String.intercalate "," (items.map JsScalar.joined)).data
  | _ => none

/-- The parts of a `POST /api/chat` request the handler reads. -/
structure ChatRequest where
  senderId : JsVal
  receiverId : JsVal
  content : JsVal
  imageUrl : JsVal
  latitude : JsVal
  longitude : JsVal
  emoticonCode : JsVal
  deriving DecidableEq, Repr

/-- The constant `sid = parseInt(senderId, 10)`. -/
def ChatRequest.sid (req : ChatRequest) : Option Int :=
  parseInt10 req.senderId

/-- The constant `rid = parseInt(receiverId, 10)`. -/
def ChatRequest.rid (req : ChatRequest) : Option Int :=
  parseInt10 req.receiverId

/-- The `INSERT INTO messages` of `POST /api/chat` with its seven parameters. -/
def insertQuery (sid rid : Int) (req : ChatRequest) : Query :=
  let hasText := req.content.isNonBlankString
  let hasImage := req.imageUrl.isNonBlankString
  let hasLocation := !req.latitude.isNullish && !req.longitude.isNullish
  let hasEmoticon := req.emoticonCode.isNonBlankString
  .insertMessage sid rid
    (if hasText then some req.content.trim else none)
    (if hasImage then some req.imageUrl.trim else none)
    (if hasLocation then some req.latitude else none)
    (if hasLocation then some req.longitude else none)
    (if hasEmoticon then some req.emoticonCode.trim else none)

/-- The handler `router.post('/')` of `routes/chat.js`. `newMsg` is `rows[0]` of the re-read,
`none` when the re-read finds no row. -/
def postChat (app : App) (req : ChatRequest) (db : Db) (w : World) : Outcome :=
  match req.sid, req.rid with
  | some sid, some rid =>
      let hasText := req.content.isNonBlankString
      let hasImage := req.imageUrl.isNonBlankString
      let hasLocation := !req.latitude.isNullish && !req.longitude.isNullish
      let hasEmoticon := req.emoticonCode.isNonBlankString
      if !hasText && !hasImage && !hasLocation && !hasEmoticon then
        { status := 400,
          body := .error ("At least one of content, imageUrl, latitude+longitude, " ++
            "or emoticonCode must be provided"),
          db := db, events := [], queries := [], geocodeCalls := 0 }
      else
        let insert := insertQuery sid rid req
        if w.dbFail 0 then
          { status := 500, body := .error "Failed to send message", db := db, events := [],
            queries := [insert], geocodeCalls := 0 }
        else
          let insertId := insertIdOf w.nextMessageId db.messages
          let db1 := insert.run w db
          if w.dbFail 1 then
            { status := 500, body := .error "Failed to send message", db := db1, events := [],
              queries := [insert, .selectMessage insertId], geocodeCalls := 0 }
          else
            let rows := db1.messages.filter fun m => decide (m.id = insertId)
            let newMsg := rows.head?
            let events : List Emit :=
              if app.io then
                [⟨.room (roomKey rid), "newMessage", .message newMsg⟩,
                 ⟨.room (roomKey sid), "newMessage", .message newMsg⟩]
              else []
            { status := 200, body := .messageSent newMsg, db := db1, events := events,
              queries := [insert, .selectMessage insertId], geocodeCalls := 0 }
  | _, _ =>
      { status := 400, body := .error "Invalid senderId or receiverId", db := db, events := [],
        queries := [], geocodeCalls := 0 }

/-- The handler `router.delete('/:id')` of `routes/chat.js`; `messageId` is the path segment
as received. -/
def deleteChatMessage (app : App) (messageId : String) (db : Db) (w : World) : Outcome :=
  if w.dbFail 0 then
    { status := 500, body := .error "Failed to delete message", db := db, events := [],
      queries := [.deleteMessage messageId], geocodeCalls := 0 }
  else
    let events : List Emit :=
      if app.io then [⟨.everyone, "messageDeleted", .messageDeleted messageId⟩] else []
    { status := 200, body := .success, db := (Query.deleteMessage messageId).run w db,
      events := events, queries := [.deleteMessage messageId], geocodeCalls := 0 }

/-- The handler `router.delete('/clear/:userId/:targetId')` of `routes/chat.js`; the ids are
the results of `parseInt`, `none` for `NaN`. -/
def clearChat (app : App) (userId targetId : Option Int) (db : Db) (w : World) : Outcome :=
  match userId, targetId with
  | some u, some t =>
      if w.dbFail 0 then
        { status := 500, body := .error "Failed to clear all messages", db := db,
          events := [], queries := [.clearConversation u t], geocodeCalls := 0 }
      else
        let events : List Emit :=
          if app.io then
            [⟨.room (roomKey u), "conversationCleared", .conversationCleared u t⟩,
             ⟨.room (roomKey t), "conversationCleared", .conversationCleared t u⟩]
          else []
        { status := 200,
          body := .cleared "All messages cleared successfully"
            (clearAffectedRows u t db.messages),
          db := (Query.clearConversation u t).run w db, events := events,
          queries := [.clearConversation u t], geocodeCalls := 0 }
  | _, _ =>
      { status := 400, body := .error "Invalid user IDs", db := db, events := [],
        queries := [], geocodeCalls := 0 }

/-- Whether an emitted event reaches a connected client other than the one whose request or
socket event caused it, given the room keys that client joined with: `io.emit` reaches every
client, `io.to(key).emit` the clients that joined `key`, `socket.emit` only the socket
itself. -/
def Emit.reaches (joined : List JsVal) (e : Emit) : Bool :=
  match e.target with
  | .everyone => true
  | .room key => decide (JsVal.str key ∈ joined)
  | .sender => false

/-- How many of the emitted events are addressed to the room `key`. -/
def emitsToRoom (key : String) (events : List Emit) : Nat :=
  (events.filter fun e => decide (e.target = .room key)).length

/-! ## Socket connection handler (`backend/index.js`) -/

/-- The argument a client sends with `toggleAmbulanceTracking`: nothing (`undefined` or
`null`, on which the destructuring throws), or a value whose `enabled` property is read
(`undefined` when it has none). -/
inductive ToggleData where
  | missing
  | object (enabled : JsVal)
  deriving DecidableEq, Repr

/-- The events a connected client can send, and its disconnection. -/
inductive ClientEvent where
  | join (userId : JsVal)
  | toggleAmbulanceTracking (data : ToggleData)
  | disconnect
  deriving DecidableEq, Repr

/-- A socket as the connection handler sees it: the process-wide tracking state, the room
keys the socket joined with, and every event emitted while handling it, oldest first. -/
structure Connection where
  tracking : AmbulanceTrackingState
  rooms : List JsVal
  emitted : List Emit
  deriving DecidableEq, Repr

/-- The body of `io.on('connection', ...)` up to the registration of the listeners: the
tracking status is sent to the new socket. -/
def onConnection (tracking : AmbulanceTrackingState) (now : Nat) : Connection :=
  { tracking := tracking, rooms := [],
    emitted := [⟨.sender, "trackingStatus", .tracking (tracking.getStatus now)⟩] }

/-- The rooms named by the argument of `socket.join`: the elements of an array, or the
value itself. -/
def joinKeys (userId : JsVal) : List JsVal :=
  match userId with
  | .array items => items.map JsScalar.toJsVal
  | key => [key]

/-- The listener `socket.on('join', ...)`: `socket.join(userId)`. -/
def onJoin (c : Connection) (userId : JsVal) : Connection :=
  let joined := (joinKeys userId).foldl
    (fun rooms key => if key ∈ rooms then rooms else key :: rooms) c.rooms
  { c with rooms := joined }

/-- The listener `socket.on('toggleAmbulanceTracking', ...)`. -/
def onToggleAmbulanceTracking (c : Connection) (data : ToggleData) (now : Nat) : Connection :=
  match data with
  | .missing =>
      { c with emitted := c.emitted ++
          [⟨.sender, "trackingToggleConfirm", .toggleConfirm false c.tracking.isEnabled none⟩] }
  | .object enabled =>
      let toggled := c.tracking.toggle enabled now
      let trackingActive := toggled.2
      let statusData := toggled.1.getStatus now
      let broadcast : Emit :=
        if trackingActive then ⟨.everyone, "ambulanceTrackingEnabled", .tracking statusData⟩
        else ⟨.everyone, "ambulanceTrackingDisabled", .tracking statusData⟩
      { c with
        tracking := toggled.1,
        emitted := c.emitted ++
          [broadcast,
           ⟨.sender, "trackingToggleConfirm", .toggleConfirm true trackingActive
              (some statusData)⟩] }

/-- The listener `socket.on('disconnect', ...)` only logs; Socket.IO takes the socket out of
its rooms. -/
def onDisconnect (c : Connection) : Connection :=
  { c with rooms := [] }

/-- One event of the client, handled at clock reading `now`. -/
def Connection.handle (c : Connection) (ev : ClientEvent) (now : Nat) : Connection :=
  match ev with
  | .join userId => onJoin c userId
  | .toggleAmbulanceTracking data => onToggleAmbulanceTracking c data now
  | .disconnect => onDisconnect c

/-- A connection followed by the events of the client in order, each with the clock reading
at which it is handled. -/
def socketSession (tracking : AmbulanceTrackingState) (now : Nat)
    (events : List (ClientEvent × Nat)) : Connection :=
  events.foldl (fun c e => c.handle e.1 e.2) (onConnection tracking now)

/-! ## Tracking endpoints (`backend/index.js`) -/

/-- What a tracking endpoint did: the answer, the tracking state afterwards and the events
emitted. -/
structure TrackingOutcome where
  status : Nat
  body : Body
  tracking : AmbulanceTrackingState
  events : List Emit
  deriving DecidableEq, Repr

/-- The handler of `app.post('/api/ambulance/tracking/toggle', ...)`. `body` is `req.body` as
the body parsers left it: a value whose `enabled` property is read, or nothing, on which the
destructuring, placed before the `try`, throws and the framework answers 500. -/
def trackingToggleRoute (s : AmbulanceTrackingState) (body : ToggleData) (now : Nat) :
    TrackingOutcome :=
  match body with
  | .missing => { status := 500, body := .uncaught, tracking := s, events := [] }
  | .object enabled =>
      let toggled := s.toggle enabled now
      let trackingActive := toggled.2
      let statusData := toggled.1.getStatus now
      let broadcast : Emit :=
        if trackingActive then ⟨.everyone, "ambulanceTrackingEnabled", .tracking statusData⟩
        else ⟨.everyone, "ambulanceTrackingDisabled", .tracking statusData⟩
      { status := 200,
        body := .toggled trackingActive
          (if trackingActive then "Tracking enabled" else "Tracking disabled") statusData,
        tracking := toggled.1, events := [broadcast] }

/-- The handler of `app.get('/api/ambulance/tracking/status', ...)`. -/
def trackingStatusRoute (s : AmbulanceTrackingState) (now : Nat) : TrackingOutcome :=
  let statusData := s.getStatus now
  { status := 200, body := .trackingStatus statusData.trackingActive statusData,
    tracking := s, events := [] }

/-- The events of a list that were emitted with `io.emit`. -/
def globalEvents (events : List Emit) : List Emit :=
  events.filter fun e => decide (e.target = .everyone)

/-! ## Order of registration (`backend/index.js`) -/

/-- The HTTP methods the application registers routes for. -/
inductive Method where
  | get
  | post
  | put
  | delete
  deriving DecidableEq, Repr

/-- A segment of a route path: a fixed text, or a `:name` parameter. -/
inductive Segment where
  | lit (text : String)
  | param (name : String)
  deriving DecidableEq, Repr

/-- Whether a segment of a route path accepts a segment of the request path. -/
def Segment.accepts (seg : Segment) (s : String) : Bool :=
  match seg with
  | .lit text => text == s
  | .param _ => true

/-- Whether a route path matches a request path, both cut at the slashes: segment by
segment and to the end. Letter case and a trailing slash, which the framework ignores, are
taken as already normalised. -/
def pathMatches : List Segment → List String → Bool
  | [], [] => true
  | seg :: segs, s :: rest => seg.accepts s && pathMatches segs rest
  | _, _ => false

/-- The part of a request path below a mount point, when the path lies below it. -/
def below : List String → List String → Option (List String)
  | [], path => some path
  | b :: base, s :: path => if b = s then below base path else none
  | _ :: _, [] => none

/-- The function that ends up answering a request. Routes of a router are numbered in the
order of their registration in the router file. -/
inductive Responder where
  | root
  | authRoute (index : Nat)
  | commentsRoute (index : Nat)
  | ambulanceRoute (index : Nat)
  | chatRoute (index : Nat)
  | uploadRoute (index : Nat)
  | staticFile
  | notFound
  | trackingToggle
  | trackingStatus
  deriving DecidableEq, Repr

/-- The routes of a router file, in the order of registration. -/
abbrev RouteTable := List (Method × List Segment)

/-- The first route of a router that matches, if any. -/
def firstMatch (method : Method) (path : List String) : RouteTable → Nat → Option Nat
  | [], _ => none
  | (m, p) :: rest, index =>
      if m = method && pathMatches p path then some index
      else firstMatch method path rest (index + 1)

/-- An entry of the application stack, one per `app.use` or `app.METHOD` call. -/
inductive Layer where
  | through (name : String)
  | route (method : Method) (path : List Segment) (answer : Responder)
  | mount (base : List String) (routes : RouteTable) (answer : Nat → Responder)
  | serveStatic (base : List String)
  | onError
  | always (answer : Responder)

/-- The request goes down the stack in the order of registration, and the first layer that
answers ends it. The cors and body parser layers call `next()`; a route answers when method
and path match; a mounted router answers with its first matching route and calls `next()`
when it has none; the static layer answers a `GET` below its mount point for an existing
file (`files`); the four-argument error handler is skipped when no error is pending; a
handler registered with `app.use(fn)` answers every request that reaches it. `none` is the
end of the stack. -/
def dispatch (files : List String → Bool) (method : Method) (path : List String) :
    List Layer → Option Responder
  | [] => none
  | .through _ :: rest => dispatch files method path rest
  | .route m p answer :: rest =>
      if m = method && pathMatches p path then some answer
      else dispatch files method path rest
  | .mount base routes answer :: rest =>
      match (below base path).bind fun sub => firstMatch method sub routes 0 with
      | some index => some (answer index)
      | none => dispatch files method path rest
  | .serveStatic base :: rest =>
      match below base path with
      | some sub =>
          if method = .get && files sub then some .staticFile
          else dispatch files method path rest
      | none => dispatch files method path rest
  | .onError :: rest => dispatch files method path rest
  | .always answer :: _ => some answer

/-- The routes of `routes/auth.js`. -/
def authRoutes : RouteTable :=
  [(.post, [.lit "register"]), (.post, [.lit "login"]), (.get, [.lit "user", .param "id"]),
   (.get, [.lit "admin"])]

/-- The routes of `routes/comments.js`. -/
def commentsRoutes : RouteTable :=
  [(.get, []), (.post, []), (.delete, [.param "id"])]

/-- The routes of `routes/ambulance.js`. -/
def ambulanceRoutes : RouteTable :=
  [(.get, []), (.put, []), (.get, [.param "id", .lit "location-detail"]),
   (.put, [.lit "status"]), (.post, [.lit "broadcast-location"]), (.post, [.lit "call"]),
   (.get, [.lit "history"]), (.delete, [.lit "history", .param "id"]),
   (.delete, [.lit "history", .lit "clear"])]

/-- The routes of `routes/chat.js`. -/
def chatRoutes : RouteTable :=
  [(.get, [.lit "conversation", .param "userId"]), (.get, [.param "userId", .param "targetId"]),
   (.post, []), (.delete, [.param "id"]),
   (.delete, [.lit "clear", .param "userId", .param "targetId"])]

/-- The routes of `routes/upload.js`. -/
def uploadRoutes : RouteTable :=
  [(.post, [])]

/-- The stack of `index.js`, in the order of its `app.use`, `app.get` and `app.post` calls:
the handler that answers 404 to everything is registered before the two tracking routes. -/
def indexStack : List Layer :=
  [.through "cors", .through "express.json", .through "express.urlencoded",
   .route .get [] .root,
   .mount ["api", "auth"] authRoutes .authRoute,
   .mount ["api", "comments"] commentsRoutes .commentsRoute,
   .mount ["api", "ambulance"] ambulanceRoutes .ambulanceRoute,
   .mount ["api", "chat"] chatRoutes .chatRoute,
   .mount ["api", "upload"] uploadRoutes .uploadRoute,
   .serveStatic ["uploads"],
   .onError,
   .always .notFound,
   .route .post [.lit "api", .lit "ambulance", .lit "tracking", .lit "toggle"] .trackingToggle,
   .route .get [.lit "api", .lit "ambulance", .lit "tracking", .lit "status"] .trackingStatus]

/-- The answer of the handler registered at `index.js:103`. -/
def notFoundAnswer (s : AmbulanceTrackingState) : TrackingOutcome :=
  { status := 404, body := .error "Endpoint not found", tracking := s, events := [] }

/-- What the application does with a request, as far as the tracking state is concerned:
the outcome of the tracking handlers and of the 404 handler, `none` when another handler
answers. -/
def serveTracking (files : List String → Bool) (s : AmbulanceTrackingState) (method : Method)
    (path : List String) (body : ToggleData) (now : Nat) : Option TrackingOutcome :=
  match dispatch files method path indexStack with
  | some .trackingToggle => some (trackingToggleRoute s body now)
  | some .trackingStatus => some (trackingStatusRoute s now)
  | some .notFound => some (notFoundAnswer s)
  | _ => none

/-- The request path `/api/ambulance/tracking/toggle`. -/
def togglePath : List String :=
  ["api", "ambulance", "tracking", "toggle"]

/-! ## Calls on the tracking state -/

/-- A call of one of the three methods of `AmbulanceTrackingState`. -/
inductive TrackingCall where
  | toggle (enabled : JsVal)
  | getStatus
  | isEnabled
  deriving DecidableEq, Repr

/-- The tracking state after a call made at clock reading `now`: only `toggle` assigns to
the fields. -/
def TrackingCall.apply (call : TrackingCall) (s : AmbulanceTrackingState) (now : Nat) :
    AmbulanceTrackingState :=
  match call with
  | .toggle enabled => (s.toggle enabled now).1
  | .getStatus => s
  | .isEnabled => s

/-- The states after each call of a sequence of calls, each with its clock reading. -/
def statesAfter (s : AmbulanceTrackingState) :
    List (TrackingCall × Nat) → List AmbulanceTrackingState
  | [] => []
  | (call, now) :: rest => call.apply s now :: statesAfter (call.apply s now) rest

/-! ## Sample data used in the evaluations below -/

/-- A message with text only. -/
def textMessage (id : Nat) (senderId receiverId : Int) (text : String) (createdAt : Nat) :
    Message :=
  { id := id, senderId := senderId, receiverId := receiverId, content := some text,
    imageUrl := none, latitude := none, longitude := none, emoticon_code := none,
    createdAt := createdAt }

/-- Three users A = 1, B = 2, C = 3. -/
def sampleUsers : List User :=
  [⟨1, "A"⟩, ⟨2, "B"⟩, ⟨3, "C"⟩]

/-- A world in which no statement fails and the geocoder throws; a comparison that stands in
the place of a value holds (it is 1), and the assignment of a column that the row of the
model does not carry leaves that row as it is. -/
def quietWorld : World :=
  { now := 1000, dbNow := 1000, dbFail := fun _ => false, geo := .failed, nextMessageId := 0,
    compared := fun _ _ _ => .num 1, assigned := fun row _ _ => some row }

/-- The log of the worked example: A to B at `t1`, B to A at `t3`, A to C at `t2`. -/
def exampleLog (t1 t2 t3 : Nat) : List Message :=
  [textMessage 1 1 2 "x" t1, textMessage 2 2 1 "y" t3, textMessage 3 1 3 "z" t2]

/-- Two messages between users 1 and 2 stored with the same `createdAt`. -/
def tiedLog : List Message :=
  [textMessage 1 1 2 "on my way" 5, textMessage 2 2 1 "thanks" 5]

/-- The body `{latitude: {id: 1, address_text: null}, longitude: 7}` of a location write
sent without the admin header. -/
def objectLatitude : LocationRequest :=
  { xAdminUpdate := none,
    latitude := .object [("id", .num 1), ("address_text", .null)],
    longitude := .num 7, isBusy := .undefined }

/-- The body `{latitude: {id: 1, address_text: "x"}, longitude: 7}` of a location write
sent without the admin header. -/
def objectLatitudeText : LocationRequest :=
  { xAdminUpdate := none,
    latitude := .object [("id", .num 1), ("address_text", .str "x")],
    longitude := .num 7, isBusy := .undefined }

/-- The body `{senderId: 5, receiverId: 9, latitude: [null], longitude: [null]}` of a chat
send. -/
def nullLocationChat : ChatRequest :=
  { senderId := .num 5, receiverId := .num 9, content := .undefined, imageUrl := .undefined,
    latitude := .array [.null], longitude := .array [.null], emoticonCode := .undefined }

/-- The body `{senderId: "12abc", receiverId: 9, emoticonCode: ":ok:"}` of a chat send. -/
def leadingDigitsChat : ChatRequest :=
  { senderId := .str "12abc", receiverId := .num 9, content := .undefined,
    imageUrl := .undefined, latitude := .undefined, longitude := .undefined,
    emoticonCode := .str ":ok:" }

/-- The body `{senderId: "abc", receiverId: 9, emoticonCode: ":ok:"}` of a chat send. -/
def wordIdChat : ChatRequest :=
  { senderId := .str "abc", receiverId := .num 9, content := .undefined,
    imageUrl := .undefined, latitude := .undefined, longitude := .undefined,
    emoticonCode := .str ":ok:" }

/-- A chat request that carries only an emoticon code. -/
def emoticonOnly (sid rid : Int) : ChatRequest :=
  { senderId := .num sid, receiverId := .num rid, content := .undefined,
    imageUrl := .undefined, latitude := .undefined, longitude := .undefined,
    emoticonCode := .str " :ok: " }

/-- A chat request that carries none of the four kinds of content: blank text, a number as
image, a latitude without longitude, an empty emoticon code. -/
def emptyChat (sid rid : Int) : ChatRequest :=
  { senderId := .num sid, receiverId := .num rid, content := .str "  ", imageUrl := .num 3,
    latitude := .num 5, longitude := .null, emoticonCode := .str "" }

/-- A world in which the second statement of a request throws and the geocoder throws. -/
def brokenWorld : World :=
  { now := 1000, dbNow := 1000, dbFail := fun k => k == 1, geo := .failed, nextMessageId := 0,
    compared := fun _ _ _ => .num 1, assigned := fun row _ _ => some row }

/-- A server whose upload folder holds no file. -/
def noFiles : List String → Bool :=
  fun _ => false

/-- A socket right after its connection, tracking active since time 0. -/
def freshSocket : Connection :=
  onConnection ⟨true, 0⟩ 10

/-- A stored location row of a busy ambulance. -/
def busyRow : LocationRow :=
  { latitude := .num 1, longitude := .num 2, isBusy := 1, address_text := some "Jl. Pahlawan",
    updatedAt := 900 }

end AmbulanceTracker

/-! # Theorems -/

namespace AmbulanceTracker

/-! ## Location update gate -/

theorem App.trackingActive_ofIndex (s : AmbulanceTrackingState) :
    (App.ofIndex s).trackingActive = s.isActive := rfl

/-- C1: a location write with both coordinates non-null is answered 423 exactly when the
tracking flag is inactive and the `X-Admin-Update` header is not the string `true`; so the
header `true` lets the write through whatever the flag is, and an active flag lets it through
whatever the header is. -/
theorem putAmbulance_status_423_iff (s : AmbulanceTrackingState) (req : LocationRequest)
    (db : Db) (w : World)
    (hlat : req.latitude.isNullish = false) (hlon : req.longitude.isNullish = false) :
    ((putAmbulance (App.ofIndex s) req db w).status = 423 ↔
        (s.isActive = false ∧ req.xAdminUpdate ≠ some "true")) ∧
      (req.xAdminUpdate = some "true" →
        (putAmbulance (App.ofIndex s) req db w).status ≠ 423) ∧
      (s.isActive = true → (putAmbulance (App.ofIndex s) req db w).status ≠ 423) := by
  have key : (putAmbulance (App.ofIndex s) req db w).status = 423 ↔
      (s.isActive = false ∧ req.xAdminUpdate ≠ some "true") := by
    by_cases h0 : w.dbFail 0 = true <;> by_cases h1 : w.dbFail 1 = true <;>
      by_cases hh : req.xAdminUpdate = some "true" <;> cases hs : s.isActive <;>
      simp [putAmbulance, hlat, hlon, App.trackingActive_ofIndex, h0, h1, hh, hs]
  refine ⟨key, ?_, ?_⟩
  · intro hh h423
    exact (key.mp h423).2 hh
  · intro hs h423
    rw [(key.mp h423).1] at hs
    exact Bool.noConfusion hs

theorem putAmbulance_status_423_iff_witness :
    (JsVal.num 5).isNullish = false ∧ (JsVal.num 7).isNullish = false ∧
      ((putAmbulance (App.ofIndex ⟨false, 0⟩) ⟨some "TRUE", .num 5, .num 7, .undefined⟩
          ⟨some busyRow, [], []⟩ quietWorld).status = 423 ↔
        ((false = false) ∧ (some "TRUE" : Option String) ≠ some "true")) :=
  ⟨rfl, rfl,
    (putAmbulance_status_423_iff ⟨false, 0⟩ ⟨some "TRUE", .num 5, .num 7, .undefined⟩
      ⟨some busyRow, [], []⟩ quietWorld rfl rfl).1⟩

/-- C2: a location write answered 423 sends no statement to the database, emits no event and
calls no geocoder, and the tables (the `ambulance_location` row among them) are the same
afterwards. -/
theorem putAmbulance_denied_no_effect (app : App) (req : LocationRequest) (db : Db) (w : World)
    (h : (putAmbulance app req db w).status = 423) :
    (putAmbulance app req db w).queries = [] ∧
      (putAmbulance app req db w).events = [] ∧
      (putAmbulance app req db w).db = db ∧
      (putAmbulance app req db w).db.location = db.location ∧
      (putAmbulance app req db w).geocodeCalls = 0 := by
  by_cases hn : (req.latitude.isNullish || req.longitude.isNullish) = true <;>
    by_cases hg : (!app.trackingActive && !decide (req.xAdminUpdate = some "true")) = true <;>
    by_cases h0 : w.dbFail 0 = true <;> by_cases h1 : w.dbFail 1 = true <;>
    simp [putAmbulance, hn, hg, h0, h1] at h ⊢

theorem putAmbulance_denied_no_effect_witness :
    (putAmbulance (App.ofIndex ⟨false, 0⟩) ⟨none, .num 5, .num 7, .bool false⟩
        ⟨some busyRow, [], []⟩ quietWorld).status = 423 ∧
      (putAmbulance (App.ofIndex ⟨false, 0⟩) ⟨none, .num 5, .num 7, .bool false⟩
        ⟨some busyRow, [], []⟩ quietWorld).db.location = some busyRow :=
  ⟨by decide,
    (putAmbulance_denied_no_effect (App.ofIndex ⟨false, 0⟩) ⟨none, .num 5, .num 7, .bool false⟩
      ⟨some busyRow, [], []⟩ quietWorld (by decide)).2.2.2.1⟩

/-! ## Tracking state -/

/-- C3: for every value `enabled`, `toggle(enabled)` leaves `isActive` equal to
`enabled === true` (true for the boolean `true` only) and returns that boolean; `isEnabled()`
and `getStatus().trackingActive` called next give the same boolean. -/
theorem toggle_isActive_eq_strict_true (s : AmbulanceTrackingState) (enabled : JsVal)
    (now later : Nat) :
    (s.toggle enabled now).1.isActive = decide (enabled = JsVal.bool true) ∧
      (s.toggle enabled now).2 = decide (enabled = JsVal.bool true) ∧
      (s.toggle enabled now).1.isEnabled = decide (enabled = JsVal.bool true) ∧
      ((s.toggle enabled now).1.getStatus later).trackingActive =
        decide (enabled = JsVal.bool true) := by
  have h : enabled.strictEqTrue = decide (enabled = JsVal.bool true) := by
    cases enabled with
    | bool b => cases b <;> simp [JsVal.strictEqTrue]
    | _ => simp [JsVal.strictEqTrue]
  simp [AmbulanceTrackingState.toggle, AmbulanceTrackingState.isEnabled,
    AmbulanceTrackingState.getStatus, h]

/-! ## Status write, geocoder failure, broadcast payload -/

/-- C8, as stated, fails when no location row is stored: with tracking inactive and an empty
`ambulance_location`, the status write answers 200 and emits no event. -/
theorem putAmbulanceStatus_without_row_emits_nothing :
    (putAmbulanceStatus (App.ofIndex ⟨false, 0⟩) (.bool true) ⟨none, [], []⟩ quietWorld).status
        = 200 ∧
      (putAmbulanceStatus (App.ofIndex ⟨false, 0⟩) (.bool true) ⟨none, [], []⟩
        quietWorld).events = [] := by
  decide

/-- C8 (amended): a status write with a non-null `isBusy` is never answered 423 and never
calls the geocoder, whatever the tracking flag. When both statements succeed it answers 200;
if a location row is stored it then emits exactly one `ambulanceLocationUpdated` to everyone,
built from the row as re-read after the update (stored coordinates and address, the new
`isBusy`), and if no row is stored it emits nothing. -/
theorem putAmbulanceStatus_ungated (s : AmbulanceTrackingState) (isBusy : JsVal) (db : Db)
    (w : World) (hbusy : isBusy.isNullish = false) :
    (putAmbulanceStatus (App.ofIndex s) isBusy db w).status ≠ 423 ∧
      (putAmbulanceStatus (App.ofIndex s) isBusy db w).geocodeCalls = 0 ∧
      (w.dbFail 0 = false → w.dbFail 1 = false →
        (putAmbulanceStatus (App.ofIndex s) isBusy db w).status = 200 ∧
        (∀ r, db.location = some r →
          ∃ row, (putAmbulanceStatus (App.ofIndex s) isBusy db w).db.location = some row ∧
            row.latitude = r.latitude ∧ row.longitude = r.longitude ∧
            row.address_text = r.address_text ∧
            row.isBusy = (if isBusy.truthy then 1 else 0) ∧
            (putAmbulanceStatus (App.ofIndex s) isBusy db w).events =
              [⟨.everyone, "ambulanceLocationUpdated", .location
                { latitude := row.latitude, longitude := row.longitude,
                  addressText := row.address_text, isBusy := decide (row.isBusy = 1),
                  updatedAt := w.now, trackingActive := s.isActive }⟩]) ∧
        (db.location = none →
          (putAmbulanceStatus (App.ofIndex s) isBusy db w).events = [])) := by
  refine ⟨?_, ?_, ?_⟩
  · by_cases h0 : w.dbFail 0 = true <;> by_cases h1 : w.dbFail 1 = true <;>
      simp [putAmbulanceStatus, hbusy, h0, h1]
  · by_cases h0 : w.dbFail 0 = true <;> by_cases h1 : w.dbFail 1 = true <;>
      simp [putAmbulanceStatus, hbusy, h0, h1]
  · intro h0 h1
    refine ⟨by simp [putAmbulanceStatus, hbusy, h0, h1], ?_, ?_⟩
    · intro r hr
      refine ⟨{ r with isBusy := (if isBusy.truthy then 1 else 0), updatedAt := w.dbNow },
        ?_, rfl, rfl, rfl, rfl, ?_⟩
      · simp [putAmbulanceStatus, hbusy, h0, h1, Query.run, hr]
      · simp [putAmbulanceStatus, hbusy, h0, h1, Query.run, hr, App.ofIndex,
          App.trackingActive, AmbulanceTrackingState.isEnabled]
    · intro hr
      simp [putAmbulanceStatus, hbusy, h0, h1, Query.run, hr]

theorem putAmbulanceStatus_ungated_witness :
    (JsVal.bool false).isNullish = false ∧
    (putAmbulanceStatus (App.ofIndex ⟨false, 0⟩) (.bool false) ⟨some busyRow, [], []⟩
        quietWorld).status ≠ 423 ∧
      (putAmbulanceStatus (App.ofIndex ⟨false, 0⟩) (.bool false) ⟨some busyRow, [], []⟩
        quietWorld).events.length = 1 :=
  ⟨rfl,
    (putAmbulanceStatus_ungated ⟨false, 0⟩ (.bool false) ⟨some busyRow, [], []⟩ quietWorld
      rfl).1, by decide⟩

/-! ## Parameters that are booleans, numbers or strings -/

theorem JsVal.isNullish_of_isScalar {v : JsVal} (h : v.isScalar = true) :
    v.isNullish = false := by
  cases v <;> simp_all [JsVal.isScalar, JsVal.isNullish]

theorem World.written_scalar (w : World) (row : Option LocationRow) {v : JsVal}
    (h : v.isScalar = true) : w.written row v = v := by
  cases v <;> simp_all [JsVal.isScalar, World.written]

theorem World.setLatitude_scalar (w : World) (r : LocationRow) {v : JsVal}
    (h : v.isScalar = true) : w.setLatitude r v = some { r with latitude := v } := by
  cases v <;>
    simp_all [JsVal.isScalar, World.setLatitude, World.written, World.assignAll,
      JsVal.moreAssignments]

theorem World.setLongitude_scalar (w : World) (r : LocationRow) {v : JsVal}
    (h : v.isScalar = true) : w.setLongitude r v = some { r with longitude := v } := by
  cases v <;>
    simp_all [JsVal.isScalar, World.setLongitude, World.written, World.assignAll,
      JsVal.moreAssignments]

theorem World.column_scalar (w : World) {v : JsVal} (h : v.isScalar = true) :
    w.column (some v) = some v := by
  cases v <;> simp_all [JsVal.isScalar, World.column, World.written]

/-! ## Failure of the reverse geocoder -/

/-- On an allowed location write whose coordinates are booleans, numbers or strings and whose
existence check and upsert succeed, if the reverse-geocode call throws then the answer is 200
with `addressText` null, and the stored `address_text` is what it was: the value of the row
that existed, or NULL in the row just inserted. -/
theorem putAmbulance_geocode_failure_scalar (app : App) (req : LocationRequest) (db : Db)
    (w : World) (hlat : req.latitude.isScalar = true) (hlon : req.longitude.isScalar = true)
    (hallow : app.trackingActive = true ∨ req.xAdminUpdate = some "true")
    (h0 : w.dbFail 0 = false) (h1 : w.dbFail 1 = false) (hgeo : w.geo = .failed) :
    (putAmbulance app req db w).status = 200 ∧
      (putAmbulance app req db w).body =
        .locationUpdated app.trackingActive req.latitude req.longitude none
          (decide (busyValueOf req.isBusy = 1)) ∧
      (∀ r, db.location = some r →
        ∃ row, (putAmbulance app req db w).db.location = some row ∧
          row.address_text = r.address_text) ∧
      (db.location = none →
        ∃ row, (putAmbulance app req db w).db.location = some row ∧
          row.address_text = none) := by
  have hg : (!app.trackingActive && !decide (req.xAdminUpdate = some "true")) = false := by
    rcases hallow with h | h <;> simp [h]
  have hlat0 := JsVal.isNullish_of_isScalar hlat
  have hlon0 := JsVal.isNullish_of_isScalar hlon
  refine ⟨?_, ?_, ?_, ?_⟩
  · simp [putAmbulance, hlat0, hlon0, hg, h0, h1]
  · simp [putAmbulance, hlat0, hlon0, hg, h0, h1, hgeo]
  · intro r hr
    by_cases hb : req.isBusy.isNullish = true <;>
      simp [putAmbulance, hlat0, hlon0, hg, h0, h1, hgeo, upsertQuery, Query.run, hr, hb,
        World.setLatitude_scalar, World.setLongitude_scalar, hlat, hlon]
  · intro hr
    simp [putAmbulance, hlat0, hlon0, hg, h0, h1, hgeo, upsertQuery, Query.run, hr]

/-- C9: the code at the failing input. Tracking is active, the stored row has the address
`Jl. Pahlawan`, and the body is `{latitude: {id: 1, address_text: null}, longitude: 7}`. The
update is the second statement and succeeds, the reverse-geocode call throws, and the answer
is 200 with `addressText` null; the stored `address_text`, which was `Jl. Pahlawan`, is NULL
after the request, and the stored latitude is the value of the comparison `id = 1`. With
the string `x` in the place of `null` in the body, the stored address is `x` afterwards. -/
theorem putAmbulance_object_latitude_loses_address :
    busyRow.address_text = some "Jl. Pahlawan" ∧
      quietWorld.geo = .failed ∧
      (putAmbulance (App.ofIndex ⟨true, 0⟩) objectLatitude ⟨some busyRow, [], []⟩
        quietWorld).status = 200 ∧
      (putAmbulance (App.ofIndex ⟨true, 0⟩) objectLatitude ⟨some busyRow, [], []⟩
        quietWorld).body =
        .locationUpdated true objectLatitude.latitude (.num 7) none false ∧
      (putAmbulance (App.ofIndex ⟨true, 0⟩) objectLatitude ⟨some busyRow, [], []⟩
        quietWorld).db.location =
        some { latitude := .num 1, longitude := .num 7, isBusy := 1, address_text := none,
               updatedAt := 1000 } ∧
      (putAmbulance (App.ofIndex ⟨true, 0⟩) objectLatitudeText ⟨some busyRow, [], []⟩
        quietWorld).status = 200 ∧
      (putAmbulance (App.ofIndex ⟨true, 0⟩) objectLatitudeText ⟨some busyRow, [], []⟩
        quietWorld).db.location.map (fun row => row.address_text) = some (some "x") := by
  decide

/-- C10: the code at the failing input. The stored row is busy and the request carries only
coordinates, with tracking active: the row after the upsert still has `isBusy = 1`, while the
broadcast payload and the `location` object of the answer both say `isBusy: false`. -/
theorem putAmbulance_omitted_isBusy_reports_not_busy :
    (putAmbulance (App.ofIndex ⟨true, 0⟩) ⟨none, .num 5, .num 7, .undefined⟩
        ⟨some busyRow, [], []⟩ quietWorld).status = 200 ∧
      (putAmbulance (App.ofIndex ⟨true, 0⟩) ⟨none, .num 5, .num 7, .undefined⟩
        ⟨some busyRow, [], []⟩ quietWorld).db.location =
        some { latitude := .num 5, longitude := .num 7, isBusy := 1,
               address_text := some "Jl. Pahlawan", updatedAt := 1000 } ∧
      (putAmbulance (App.ofIndex ⟨true, 0⟩) ⟨none, .num 5, .num 7, .undefined⟩
        ⟨some busyRow, [], []⟩ quietWorld).events =
        [⟨.everyone, "ambulanceLocationUpdated", .location
          { latitude := .num 5, longitude := .num 7, addressText := none, isBusy := false,
            updatedAt := 1000, trackingActive := true }⟩] ∧
      (putAmbulance (App.ofIndex ⟨true, 0⟩) ⟨none, .num 5, .num 7, .undefined⟩
        ⟨some busyRow, [], []⟩ quietWorld).body =
        .locationUpdated true (.num 5) (.num 7) none false := by
  decide

/-! ## Conversation list and chat history -/

theorem le_maxCreatedAt {group : List Message} {m : Message} (h : m ∈ group) :
    m.createdAt ≤ maxCreatedAt group := by
  induction group with
  | nil => cases h
  | cons a t ih =>
    simp only [maxCreatedAt, List.map_cons, List.foldr_cons] at ih ⊢
    rcases List.mem_cons.mp h with rfl | h
    · exact le_max_left _ _
    · exact le_trans (ih h) (le_max_right _ _)

theorem exists_mem_maxCreatedAt {group : List Message} (h : group ≠ []) :
    ∃ m ∈ group, m.createdAt = maxCreatedAt group := by
  induction group with
  | nil => exact absurd rfl h
  | cons a t ih =>
    by_cases ht : t = []
    · subst ht
      exact ⟨a, List.mem_cons_self _ _, by simp [maxCreatedAt]⟩
    · obtain ⟨m, hm, hmax⟩ := ih ht
      by_cases hle : maxCreatedAt t ≤ a.createdAt
      · refine ⟨a, List.mem_cons_self _ _, ?_⟩
        simp only [maxCreatedAt, List.map_cons, List.foldr_cons] at hle ⊢
        exact (max_eq_left hle).symm
      · refine ⟨m, List.mem_cons_of_mem _ hm, ?_⟩
        simp only [maxCreatedAt, List.map_cons, List.foldr_cons] at hle hmax ⊢
        rw [hmax]
        exact (max_eq_right (le_of_not_le hle)).symm

/-- The partition of the conversation query is the pair filter of the history query: a
message involves the user with partner `p` exactly when it is between the user and `p`. -/
theorem involves_partnerOf_iff (userId p : Int) (m : Message) :
    (involves userId m = true ∧ partnerOf userId m = p) ↔ betweenPair userId p m = true := by
  simp only [involves, partnerOf, betweenPair, Bool.or_eq_true, Bool.and_eq_true,
    decide_eq_true_eq]
  split <;> constructor <;> intro h <;> omega

/-- Membership in the joined rows, spelled out: a row comes from a message that involves the
user and carries the maximal `createdAt` of its partner group, and from a `users` row of the
partner. -/
theorem mem_joinedRows (userId : Int) (db : Db) (e : Conversation) :
    e ∈ joinedRows userId db ↔
      ∃ m ∈ db.messages, involves userId m = true ∧
        m.createdAt = maxCreatedAt ((db.messages.filter (involves userId)).filter
          fun x => decide (partnerOf userId x = partnerOf userId m)) ∧
        ∃ u ∈ db.users, u.id = partnerOf userId m ∧
          e = { partnerId := partnerOf userId m, partnerName := u.fullName,
                content := m.content, imageUrl := m.imageUrl, latitude := m.latitude,
                longitude := m.longitude, emoticonCode := m.emoticon_code,
                lastTimestamp := m.createdAt } := by
  simp only [joinedRows, derivedC, derivedG, List.mem_flatMap, List.mem_map, List.mem_filter,
    List.mem_dedup, Bool.and_eq_true, decide_eq_true_eq]
  constructor
  · rintro ⟨c, ⟨m, ⟨hm, hi⟩, rfl⟩, g, ⟨⟨p, ⟨m', ⟨hm', hi'⟩, rfl⟩, rfl⟩, hp, hts⟩, u, ⟨hu, hid⟩, rfl⟩
    simp only at hp hts hid
    refine ⟨m, hm, hi, ?_, u, hu, hid, rfl⟩
    rw [hts, hp]
  · rintro ⟨m, hm, hi, hts, u, hu, hid, rfl⟩
    exact ⟨_, ⟨m, ⟨hm, hi⟩, rfl⟩, _, ⟨⟨partnerOf userId m, ⟨m, ⟨hm, hi⟩, rfl⟩, rfl⟩, rfl, hts⟩,
      u, ⟨hu, hid⟩, rfl⟩

theorem mem_conversationList (userId : Int) (db : Db) (e : Conversation) :
    e ∈ conversationList userId db ↔ e ∈ joinedRows userId db :=
  (List.perm_insertionSort newerFirst (joinedRows userId db)).mem_iff

/-- The answer of the conversation handler when its query succeeds. -/
theorem getConversation_ok (userId : Int) (db : Db) (w : World) (h : w.dbFail 0 = false) :
    (getConversation (some userId) db w).status = 200 ∧
      (getConversation (some userId) db w).body =
        .conversations (conversationList userId db) := by
  simp [getConversation, h]

/-- Each entry of the list carries the latest timestamp of its pair and the fields of a
message of the pair with that timestamp. -/
theorem conversationList_entry_latest (userId : Int) (db : Db) (e : Conversation)
    (he : e ∈ conversationList userId db) :
    (∀ m ∈ db.messages, betweenPair userId e.partnerId m = true →
        m.createdAt ≤ e.lastTimestamp) ∧
      ∃ m ∈ db.messages, betweenPair userId e.partnerId m = true ∧
        m.createdAt = e.lastTimestamp ∧ e.content = m.content ∧ e.imageUrl = m.imageUrl ∧
        e.latitude = m.latitude ∧ e.longitude = m.longitude ∧
        e.emoticonCode = m.emoticon_code := by
  obtain ⟨m, hm, hi, hts, u, _, _, rfl⟩ :=
    (mem_joinedRows userId db e).mp ((mem_conversationList userId db e).mp he)
  refine ⟨?_, m, hm, (involves_partnerOf_iff userId _ m).mp ⟨hi, rfl⟩, rfl, rfl, rfl, rfl, rfl,
    rfl⟩
  intro m' hm' hb
  obtain ⟨hi', hp'⟩ := (involves_partnerOf_iff userId _ m').mpr hb
  show m'.createdAt ≤ m.createdAt
  rw [hts]
  apply le_maxCreatedAt
  simp only [List.mem_filter, decide_eq_true_eq]
  exact ⟨⟨hm', hi'⟩, hp'⟩

/-- The list has an entry for `p` exactly when some message is between the user and `p` and
`p` has a `users` row: every such partner is listed, and nobody else is. -/
theorem exists_conversation_iff (userId p : Int) (db : Db) :
    (∃ e ∈ conversationList userId db, e.partnerId = p) ↔
      (∃ m ∈ db.messages, betweenPair userId p m = true) ∧ ∃ u ∈ db.users, u.id = p := by
  constructor
  · rintro ⟨e, he, rfl⟩
    obtain ⟨m, hm, hi, _, u, hu, hid, rfl⟩ :=
      (mem_joinedRows userId db e).mp ((mem_conversationList userId db e).mp he)
    exact ⟨⟨m, hm, (involves_partnerOf_iff userId _ m).mp ⟨hi, rfl⟩⟩, u, hu, hid⟩
  · rintro ⟨⟨m, hm, hb⟩, u, hu, hid⟩
    obtain ⟨hi, hp⟩ := (involves_partnerOf_iff userId p m).mpr hb
    have hne : ((db.messages.filter (involves userId)).filter
        fun x => decide (partnerOf userId x = p)) ≠ [] := by
      apply List.ne_nil_of_mem (a := m)
      simp only [List.mem_filter, decide_eq_true_eq]
      exact ⟨⟨hm, hi⟩, hp⟩
    obtain ⟨m', hm', hmax⟩ := exists_mem_maxCreatedAt hne
    simp only [List.mem_filter, decide_eq_true_eq] at hm'
    obtain ⟨⟨hmem, hi'⟩, hp'⟩ := hm'
    refine ⟨_, (mem_conversationList userId db _).mpr
      ((mem_joinedRows userId db _).mpr
        ⟨m', hmem, hi', ?_, u, hu, hid.trans hp'.symm, rfl⟩), hp'⟩
    rw [hp']
    exact hmax

/-- C4: the code at the failing input. Users 1 and 2 exchanged two messages stored with the
same `createdAt`; both rows pass the join on `MAX(createdAt)`, so the list sent for user 1
holds two entries for partner 2. -/
theorem getConversation_tie_lists_partner_twice :
    (getConversation (some 1) ⟨none, tiedLog, sampleUsers⟩ quietWorld).status = 200 ∧
      (getConversation (some 1) ⟨none, tiedLog, sampleUsers⟩ quietWorld).body =
        .conversations
          [{ partnerId := 2, partnerName := "B", content := some "on my way",
             imageUrl := none, latitude := none, longitude := none, emoticonCode := none,
             lastTimestamp := 5 },
           { partnerId := 2, partnerName := "B", content := some "thanks",
             imageUrl := none, latitude := none, longitude := none, emoticonCode := none,
             lastTimestamp := 5 }] := by
  decide

/-- C5: when the conversation query succeeds the handler answers 200 with a list that has
an entry for a partner exactly when some message is between the user and that partner and the
partner has a `users` row. Every entry has `lastTimestamp` equal to the maximum `createdAt`
over the messages between the user and the entry partner (no such message is later, and one
has exactly that timestamp), and the content, image, latitude, longitude and emoticon of the
entry are those of a message of the pair with that timestamp. -/
theorem getConversation_entries_latest (userId : Int) (db : Db) (w : World)
    (h : w.dbFail 0 = false) :
    ∃ list, (getConversation (some userId) db w).status = 200 ∧
      (getConversation (some userId) db w).body = .conversations list ∧
      (∀ p, (∃ e ∈ list, e.partnerId = p) ↔
        (∃ m ∈ db.messages, betweenPair userId p m = true) ∧ ∃ u ∈ db.users, u.id = p) ∧
      ∀ e ∈ list,
        (∀ m ∈ db.messages, betweenPair userId e.partnerId m = true →
          m.createdAt ≤ e.lastTimestamp) ∧
        ∃ m ∈ db.messages, betweenPair userId e.partnerId m = true ∧
          m.createdAt = e.lastTimestamp ∧ e.content = m.content ∧
          e.imageUrl = m.imageUrl ∧ e.latitude = m.latitude ∧ e.longitude = m.longitude ∧
          e.emoticonCode = m.emoticon_code :=
  ⟨conversationList userId db, (getConversation_ok userId db w h).1,
    (getConversation_ok userId db w h).2,
    fun p => exists_conversation_iff userId p db,
    fun e he => conversationList_entry_latest userId db e he⟩

theorem getConversation_entries_latest_witness :
    quietWorld.dbFail 0 = false ∧
    (∃ list, (getConversation (some 1) ⟨none, exampleLog 10 20 30, sampleUsers⟩
        quietWorld).status = 200 ∧
      (getConversation (some 1) ⟨none, exampleLog 10 20 30, sampleUsers⟩ quietWorld).body =
        .conversations list ∧
      (∀ p, (∃ e ∈ list, e.partnerId = p) ↔
        (∃ m ∈ exampleLog 10 20 30, betweenPair 1 p m = true) ∧
          ∃ u ∈ sampleUsers, u.id = p) ∧
      ∀ e ∈ list,
        (∀ m ∈ exampleLog 10 20 30, betweenPair 1 e.partnerId m = true →
          m.createdAt ≤ e.lastTimestamp) ∧
        ∃ m ∈ exampleLog 10 20 30, betweenPair 1 e.partnerId m = true ∧
          m.createdAt = e.lastTimestamp ∧ e.content = m.content ∧
          e.imageUrl = m.imageUrl ∧ e.latitude = m.latitude ∧ e.longitude = m.longitude ∧
          e.emoticonCode = m.emoticon_code) ∧
    (getConversation (some 1) ⟨none, exampleLog 10 20 30, sampleUsers⟩ quietWorld).body =
      .conversations
        [{ partnerId := 2, partnerName := "B", content := some "y", imageUrl := none,
           latitude := none, longitude := none, emoticonCode := none, lastTimestamp := 30 },
         { partnerId := 3, partnerName := "C", content := some "z", imageUrl := none,
           latitude := none, longitude := none, emoticonCode := none, lastTimestamp := 20 }] :=
  ⟨rfl,
    getConversation_entries_latest 1 ⟨none, exampleLog 10 20 30, sampleUsers⟩ quietWorld rfl,
    by decide⟩

/-- C6: when the conversation query succeeds the list sent is ordered most recent first:
of any two entries the earlier has a `lastTimestamp` at least that of the later (so also of
any two consecutive ones). On the worked example, A to B at `t1`, B to A at `t3` and A to C at
`t2` with `t1 < t2 < t3`, the list for A is partner B at `t3`, then partner C at `t2`. -/
theorem getConversation_newest_first (userId : Int) (db : Db) (w : World)
    (h : w.dbFail 0 = false) :
    (∃ list, (getConversation (some userId) db w).body = .conversations list ∧
        List.Pairwise (fun a b : Conversation => b.lastTimestamp ≤ a.lastTimestamp) list) ∧
      ∀ t1 t2 t3 : Nat, t1 < t2 → t2 < t3 →
        ∃ list, (getConversation (some 1) ⟨none, exampleLog t1 t2 t3, sampleUsers⟩
            w).body = .conversations list ∧
          list.map (fun e => (e.partnerId, e.lastTimestamp)) = [(2, t3), (3, t2)] := by
  constructor
  · refine ⟨conversationList userId db, (getConversation_ok userId db w h).2, ?_⟩
    haveI : IsTotal Conversation newerFirst := ⟨fun a b => Nat.le_total _ _⟩
    haveI : IsTrans Conversation newerFirst := ⟨fun a b c hab hbc => Nat.le_trans hbc hab⟩
    exact List.sorted_insertionSort newerFirst _
  · intro t1 t2 t3 h12 h23
    refine ⟨_, (getConversation_ok 1 _ w h).2, ?_⟩
    have h31 : ¬ t3 ≤ t1 := by omega
    have h13 : t1 ≤ t3 := by omega
    have h32 : t2 ≤ t3 := by omega
    have hne : ¬ t1 = t3 := by omega
    simp [conversationList, joinedRows, derivedC, derivedG, involves, partnerOf, textMessage,
      exampleLog, sampleUsers, maxCreatedAt, List.filter, List.dedup, List.flatMap, h31, h13,
      h32, hne, newerFirst, List.insertionSort, List.orderedInsert]

theorem getConversation_newest_first_witness :
    quietWorld.dbFail 0 = false ∧ (1 : Nat) < 2 ∧ (2 : Nat) < 3 ∧
      ∃ list, (getConversation (some 1) ⟨none, exampleLog 1 2 3, sampleUsers⟩
          quietWorld).body = .conversations list ∧
        list.map (fun e => (e.partnerId, e.lastTimestamp)) = [(2, 3), (3, 2)] :=
  ⟨rfl, by decide, by decide,
    (getConversation_newest_first 1 ⟨none, [], []⟩ quietWorld rfl).2 1 2 3 (by decide)
      (by decide)⟩

/-- C7: when the history query succeeds, `GET /chat/:userId/:targetId` answers 200 with rows
whose messages are exactly the stored messages with (sender, receiver) equal to
(userId, targetId) or (targetId, userId), each as often as it is stored, in non-decreasing
`createdAt` order, every row tagged `outgoing` if its sender is `userId` and `incoming`
otherwise. -/
theorem getChat_history (userId targetId : Int) (db : Db) (w : World)
    (h : w.dbFail 0 = false) :
    ∃ rows, (getChat (some userId) (some targetId) db w).status = 200 ∧
      (getChat (some userId) (some targetId) db w).body = .chat rows ∧
      (rows.map (fun row => row.message)).Perm
        (db.messages.filter fun m =>
          decide ((m.senderId = userId ∧ m.receiverId = targetId) ∨
            (m.senderId = targetId ∧ m.receiverId = userId))) ∧
      List.Pairwise (fun a b : ChatRow => a.message.createdAt ≤ b.message.createdAt) rows ∧
      ∀ row ∈ rows,
        row.direction = if row.message.senderId = userId then "outgoing" else "incoming" := by
  refine ⟨chatHistory userId targetId db.messages, by simp [getChat, h], by simp [getChat, h],
    ?_, ?_, ?_⟩
  · have hf : (db.messages.filter fun m =>
          decide ((m.senderId = userId ∧ m.receiverId = targetId) ∨
            (m.senderId = targetId ∧ m.receiverId = userId))) =
        db.messages.filter (betweenPair userId targetId) := by
      apply List.filter_congr
      intro m _
      simp [betweenPair]
    rw [hf]
    simp only [chatHistory, List.map_map]
    have hid : ((fun row : ChatRow => row.message) ∘ fun m =>
        ({ message := m, direction := directionOf userId m } : ChatRow)) = id := rfl
    rw [hid, List.map_id]
    exact List.perm_insertionSort _ _
  · haveI : IsTotal Message olderFirst := ⟨fun a b => Nat.le_total _ _⟩
    haveI : IsTrans Message olderFirst := ⟨fun a b c hab hbc => Nat.le_trans hab hbc⟩
    have hs : List.Pairwise olderFirst
        ((db.messages.filter (betweenPair userId targetId)).insertionSort olderFirst) :=
      List.sorted_insertionSort olderFirst _
    simp only [chatHistory, List.pairwise_map]
    exact hs
  · intro row hrow
    simp only [chatHistory, List.mem_map] at hrow
    obtain ⟨m, _, rfl⟩ := hrow
    rfl

theorem getChat_history_witness :
    quietWorld.dbFail 0 = false ∧
    ∃ rows, (getChat (some 1) (some 2) ⟨none, exampleLog 10 20 30, sampleUsers⟩
        quietWorld).status = 200 ∧
      (getChat (some 1) (some 2) ⟨none, exampleLog 10 20 30, sampleUsers⟩ quietWorld).body =
        .chat rows ∧
      (rows.map (fun row => row.message)).Perm
        ((exampleLog 10 20 30).filter fun m =>
          decide ((m.senderId = 1 ∧ m.receiverId = 2) ∨
            (m.senderId = 2 ∧ m.receiverId = 1))) ∧
      List.Pairwise (fun a b : ChatRow => a.message.createdAt ≤ b.message.createdAt) rows ∧
      ∀ row ∈ rows,
        row.direction = if row.message.senderId = 1 then "outgoing" else "incoming" :=
  ⟨rfl, getChat_history 1 2 ⟨none, exampleLog 10 20 30, sampleUsers⟩ quietWorld rfl⟩


/-! ## Upsert of the location row -/

/-- On an allowed location write whose coordinates are booleans, numbers or strings and whose
existence check and upsert succeed, the second statement sent is the upsert, and the handler
leaves the tables as the upsert left them, up to the later write of a resolved address. The
upsert inserts a row when none is stored. When a row is stored it writes the latitude and
longitude of the request and refreshes `updatedAt`; `isBusy` is written only when the request
carries it and is otherwise the stored value; `address_text` is the stored value. -/
theorem putAmbulance_upsert_frame_scalar (app : App) (req : LocationRequest) (db : Db)
    (w : World) (hlat : req.latitude.isScalar = true) (hlon : req.longitude.isScalar = true)
    (hallow : app.trackingActive = true ∨ req.xAdminUpdate = some "true")
    (h0 : w.dbFail 0 = false) (h1 : w.dbFail 1 = false) :
    (putAmbulance app req db w).queries.take 2 =
        [.selectLocationId, upsertQuery db.location.isSome req] ∧
      ((putAmbulance app req db w).db =
          (upsertQuery db.location.isSome req).run w db ∨
        ∃ a, (putAmbulance app req db w).db =
          (Query.updateAddressText a).run w
            ((upsertQuery db.location.isSome req).run w db)) ∧
      (db.location = none →
        ((upsertQuery db.location.isSome req).run w db).location =
          some { latitude := req.latitude, longitude := req.longitude,
                 isBusy := busyValueOf req.isBusy, address_text := none,
                 updatedAt := w.dbNow }) ∧
      (∀ r, db.location = some r →
        ((upsertQuery db.location.isSome req).run w db).location =
          some { latitude := req.latitude, longitude := req.longitude,
                 isBusy := if req.isBusy.isNullish then r.isBusy
                           else (if req.isBusy.truthy then 1 else 0),
                 address_text := r.address_text, updatedAt := w.dbNow }) ∧
      ((upsertQuery db.location.isSome req).run w db).messages = db.messages ∧
      ((upsertQuery db.location.isSome req).run w db).users = db.users := by
  have hg : (!app.trackingActive && !decide (req.xAdminUpdate = some "true")) = false := by
    rcases hallow with h | h <;> simp [h]
  have hlat0 := JsVal.isNullish_of_isScalar hlat
  have hlon0 := JsVal.isNullish_of_isScalar hlon
  refine ⟨?_, ?_, ?_, ?_, ?_, ?_⟩
  · simp [putAmbulance, hlat0, hlon0, hg, h0, h1]
  · cases hgeo : w.geo with
    | failed => left; simp [putAmbulance, hlat0, hlon0, hg, h0, h1, hgeo]
    | ok displayName =>
      cases hd : displayNameOrNull displayName with
      | none => left; simp [putAmbulance, hlat0, hlon0, hg, h0, h1, hgeo, hd]
      | some a =>
        by_cases h2 : w.dbFail 2 = true
        · left; simp [putAmbulance, hlat0, hlon0, hg, h0, h1, hgeo, hd, h2]
        · right; exact ⟨a, by simp [putAmbulance, hlat0, hlon0, hg, h0, h1, hgeo, hd, h2]⟩
  · intro hr
    simp [upsertQuery, Query.run, hr, World.written_scalar, hlat, hlon]
  · intro r hr
    by_cases hb : req.isBusy.isNullish = true <;>
      simp [upsertQuery, Query.run, hr, hb, busyValueOf, World.setLatitude_scalar,
        World.setLongitude_scalar, hlat, hlon]
  · by_cases he : db.location.isSome = true <;>
      by_cases hb : req.isBusy.isNullish = true <;> simp [upsertQuery, Query.run, he, hb]
  · by_cases he : db.location.isSome = true <;>
      by_cases hb : req.isBusy.isNullish = true <;> simp [upsertQuery, Query.run, he, hb]

/-- C11: the code at the failing input. A row is stored with `isBusy` 1 and the address
`Jl. Pahlawan`; the body is `{latitude: {id: 1, address_text: null}, longitude: 7}`, with no
`isBusy`. The second statement sent is the update that names latitude, longitude and
`updatedAt` only, bound to the two body values as received. The row it leaves has
`address_text` NULL: the update has written a column the text of the statement does not name
and the payload does not carry as a field. With the string `x` in the place of `null` in
the body, the row it leaves has the address `x`. -/
theorem upsert_object_latitude_writes_address :
    (putAmbulance (App.ofIndex ⟨true, 0⟩) objectLatitude ⟨some busyRow, [], []⟩
        quietWorld).queries.take 2 =
        [.selectLocationId, .updateLocationCoords objectLatitude.latitude (.num 7)] ∧
      upsertQuery (some busyRow).isSome objectLatitude =
        .updateLocationCoords objectLatitude.latitude (.num 7) ∧
      ((upsertQuery (some busyRow).isSome objectLatitude).run quietWorld
          ⟨some busyRow, [], []⟩).location =
        some { latitude := .num 1, longitude := .num 7, isBusy := 1, address_text := none,
               updatedAt := 1000 } ∧
      ((upsertQuery (some busyRow).isSome objectLatitude).run quietWorld
          ⟨some busyRow, [], []⟩).location.map (fun row => row.address_text) ≠
        some busyRow.address_text ∧
      ((upsertQuery (some busyRow).isSome objectLatitudeText).run quietWorld
          ⟨some busyRow, [], []⟩).location =
        some { latitude := .num 1, longitude := .num 7, isBusy := 1,
               address_text := some "x", updatedAt := 1000 } := by
  decide

/-! ## Chat send -/

theorem JsVal.isNonBlankString_iff (v : JsVal) :
    v.isNonBlankString = true ↔ ∃ s, v = JsVal.str s ∧ jsTrim s ≠ "" := by
  cases v <;> simp [JsVal.isNonBlankString]

theorem JsVal.isNullish_eq_false_iff (v : JsVal) :
    v.isNullish = false ↔ v ≠ JsVal.null ∧ v ≠ JsVal.undefined := by
  cases v <;> simp [JsVal.isNullish]

/-- C12: a chat send whose sender and receiver ids parse as integers is answered 400
exactly when none of the four kinds of content is provided: content, imageUrl and
emoticonCode are provided when they are strings that are not empty after trimming, the
location when latitude and longitude are both neither null nor undefined. So a request
with only a non-blank emoticonCode is not answered 400 (and is answered 200 when both
statements succeed), and a request with none of the four is answered 400. -/
theorem postChat_status_400_iff (app : App) (req : ChatRequest) (db : Db) (w : World)
    (sid rid : Int) (hs : req.sid = some sid) (hr : req.rid = some rid) :
    ((postChat app req db w).status = 400 ↔
        (¬ (∃ s, req.content = .str s ∧ jsTrim s ≠ "") ∧
          ¬ (∃ s, req.imageUrl = .str s ∧ jsTrim s ≠ "") ∧
          ¬ (∃ s, req.emoticonCode = .str s ∧ jsTrim s ≠ "") ∧
          ¬ ((req.latitude ≠ .null ∧ req.latitude ≠ .undefined) ∧
              (req.longitude ≠ .null ∧ req.longitude ≠ .undefined)))) ∧
      ((∃ s, req.emoticonCode = .str s ∧ jsTrim s ≠ "") →
        (postChat app req db w).status ≠ 400 ∧
        (w.dbFail 0 = false → w.dbFail 1 = false → (postChat app req db w).status = 200)) := by
  have ht := JsVal.isNonBlankString_iff req.content
  have hi := JsVal.isNonBlankString_iff req.imageUrl
  have he := JsVal.isNonBlankString_iff req.emoticonCode
  have hla := JsVal.isNullish_eq_false_iff req.latitude
  have hlo := JsVal.isNullish_eq_false_iff req.longitude
  rw [← ht, ← hi, ← he, ← hla, ← hlo]
  constructor
  · cases hc : req.content.isNonBlankString <;> cases him : req.imageUrl.isNonBlankString <;>
      cases hem : req.emoticonCode.isNonBlankString <;> cases hlat : req.latitude.isNullish <;>
      cases hlon : req.longitude.isNullish <;> by_cases h0 : w.dbFail 0 = true <;>
      by_cases h1 : w.dbFail 1 = true <;>
      simp [postChat, hs, hr, h0, h1, hc, him, hem, hlat, hlon]
  · intro hem
    constructor
    · by_cases h0 : w.dbFail 0 = true <;> by_cases h1 : w.dbFail 1 = true <;>
        simp [postChat, hs, hr, h0, h1, hem]
    · intro h0 h1
      simp [postChat, hs, hr, h0, h1, hem]

theorem postChat_status_400_iff_witness :
    (emoticonOnly 5 9).sid = some 5 ∧ (emoticonOnly 5 9).rid = some 9 ∧
      (∃ s, (emoticonOnly 5 9).emoticonCode = .str s ∧ jsTrim s ≠ "") ∧
      (postChat (App.ofIndex ⟨true, 0⟩) (emoticonOnly 5 9) ⟨none, tiedLog, sampleUsers⟩
        quietWorld).status = 200 ∧
      (postChat (App.ofIndex ⟨true, 0⟩) (emptyChat 5 9) ⟨none, tiedLog, sampleUsers⟩
        quietWorld).status = 400 :=
  ⟨rfl, rfl, ⟨" :ok: ", rfl, by decide⟩,
    ((postChat_status_400_iff (App.ofIndex ⟨true, 0⟩) (emoticonOnly 5 9)
      ⟨none, tiedLog, sampleUsers⟩ quietWorld 5 9 rfl rfl).2 ⟨" :ok: ", rfl, by decide⟩).2
      rfl rfl,
    by decide⟩


theorem World.column_plain (w : World) {v : JsVal}
    (hp : v.isNullish = true ∨ v.isScalar = true) (hn : v.isNullish = false) :
    w.column (some v) = some v := by
  rcases hp with hp | hp
  · simp [hp] at hn
  · exact w.column_scalar hp

/-- A chat send whose latitude and longitude are each null, absent, a boolean, a number or a
string either leaves the `messages` table as it was or appends one row, and it appends one
whenever the ids parse, some content is provided and the insert succeeds. The appended row
has content, imageUrl or emoticon_code non-null, or both latitude and longitude non-null; its
latitude and longitude are both NULL or both stored values that are neither null nor
undefined. -/
theorem postChat_inserted_row_invariant_scalar (app : App) (req : ChatRequest) (db : Db)
    (w : World) (hplat : req.latitude.isNullish = true ∨ req.latitude.isScalar = true)
    (hplon : req.longitude.isNullish = true ∨ req.longitude.isScalar = true) :
    ((postChat app req db w).db.messages = db.messages ∨
        ∃ m, (postChat app req db w).db.messages = db.messages ++ [m] ∧
          (m.content ≠ none ∨ m.imageUrl ≠ none ∨ m.emoticon_code ≠ none ∨
            (m.latitude ≠ none ∧ m.longitude ≠ none)) ∧
          (m.latitude = none ↔ m.longitude = none) ∧
          (∀ v, m.latitude = some v → v.isNullish = false) ∧
          (∀ v, m.longitude = some v → v.isNullish = false)) ∧
      (∀ sid rid, req.sid = some sid → req.rid = some rid →
        (postChat app req db w).status ≠ 400 → w.dbFail 0 = false →
        (postChat app req db w).db.messages = db.messages ++
          [{ id := insertIdOf w.nextMessageId db.messages, senderId := sid,
             receiverId := rid,
             content := if req.content.isNonBlankString then some req.content.trim else none,
             imageUrl := if req.imageUrl.isNonBlankString then some req.imageUrl.trim else none,
             latitude := if !req.latitude.isNullish && !req.longitude.isNullish
               then some req.latitude else none,
             longitude := if !req.latitude.isNullish && !req.longitude.isNullish
               then some req.longitude else none,
             emoticon_code := if req.emoticonCode.isNonBlankString
               then some req.emoticonCode.trim else none,
             createdAt := w.dbNow }]) := by
  have klat := w.column_plain hplat
  have klon := w.column_plain hplon
  have knone : w.column none = none := rfl
  constructor
  · cases hs : req.sid with
    | none => left; simp [postChat, hs]
    | some sid =>
      cases hr : req.rid with
      | none => left; simp [postChat, hs, hr]
      | some rid =>
        by_cases h0 : w.dbFail 0 = true
        · left
          cases hc : req.content.isNonBlankString <;>
            cases him : req.imageUrl.isNonBlankString <;>
            cases hem : req.emoticonCode.isNonBlankString <;>
            cases hlat : req.latitude.isNullish <;>
            cases hlon : req.longitude.isNullish <;>
            simp [postChat, hs, hr, h0, hc, him, hem, hlat, hlon]
        · cases hc : req.content.isNonBlankString <;>
            cases him : req.imageUrl.isNonBlankString <;>
            cases hem : req.emoticonCode.isNonBlankString <;>
            cases hlat : req.latitude.isNullish <;>
            cases hlon : req.longitude.isNullish <;>
            by_cases h1 : w.dbFail 1 = true <;>
            simp [postChat, insertQuery, Query.run, hs, hr, h0, h1, hc, him, hem, hlat, hlon,
              klat, klon, knone]
  · intro sid rid hs hr h400 h0
    cases hc : req.content.isNonBlankString <;>
      cases him : req.imageUrl.isNonBlankString <;>
      cases hem : req.emoticonCode.isNonBlankString <;>
      cases hlat : req.latitude.isNullish <;>
      cases hlon : req.longitude.isNullish <;>
      by_cases h1 : w.dbFail 1 = true <;>
      simp [postChat, insertQuery, Query.run, hs, hr, h0, h1, hc, him, hem, hlat, hlon,
        klat, klon, knone] at h400 ⊢

/-- C13: the code at the failing input. The body is
`{senderId: 5, receiverId: 9, latitude: [null], longitude: [null]}`: both coordinates pass
the test `!= null`, so the request is not answered 400, and they are bound as received. Both
statements succeed, the answer is 200, and the row appended has content, imageUrl,
emoticon_code, latitude and longitude all NULL. -/
theorem postChat_null_array_location_stores_empty_row :
    (!nullLocationChat.latitude.isNullish && !nullLocationChat.longitude.isNullish) = true ∧
      (postChat (App.ofIndex ⟨true, 0⟩) nullLocationChat ⟨none, tiedLog, sampleUsers⟩
        quietWorld).status = 200 ∧
      (postChat (App.ofIndex ⟨true, 0⟩) nullLocationChat ⟨none, tiedLog, sampleUsers⟩
        quietWorld).queries.head? =
        some (.insertMessage 5 9 none none (some (.array [.null])) (some (.array [.null]))
          none) ∧
      (postChat (App.ofIndex ⟨true, 0⟩) nullLocationChat ⟨none, tiedLog, sampleUsers⟩
        quietWorld).db.messages = tiedLog ++
          [{ id := 3, senderId := 5, receiverId := 9, content := none, imageUrl := none,
             latitude := none, longitude := none, emoticon_code := none,
             createdAt := 1000 }] := by
  decide

/-! ## Validation and persistence failures -/

/-- C19, as stated, fails: the sender id `12abc` is not a number, yet `parseInt` reads 12
from it, so the chat send is not answered 400: both statements are sent, a row with sender 12
is stored and `newMessage` is emitted to the rooms `9` and `12`. -/
theorem postChat_leading_digits_id_accepted :
    leadingDigitsChat.senderId = .str "12abc" ∧
      "12abc".data.all Char.isDigit = false ∧
      parseInt10 leadingDigitsChat.senderId = some 12 ∧
      (postChat (App.ofIndex ⟨true, 0⟩) leadingDigitsChat ⟨none, tiedLog, sampleUsers⟩
        quietWorld).status = 200 ∧
      (postChat (App.ofIndex ⟨true, 0⟩) leadingDigitsChat ⟨none, tiedLog, sampleUsers⟩
        quietWorld).queries =
        [.insertMessage 12 9 none none none none (some ":ok:"), .selectMessage 3] ∧
      (postChat (App.ofIndex ⟨true, 0⟩) leadingDigitsChat ⟨none, tiedLog, sampleUsers⟩
        quietWorld).db.messages.map (fun m => m.senderId) = [1, 2, 12] ∧
      (postChat (App.ofIndex ⟨true, 0⟩) leadingDigitsChat ⟨none, tiedLog, sampleUsers⟩
        quietWorld).events.map (fun e => (e.target, e.event)) =
        [(.room "9", "newMessage"), (.room "12", "newMessage")] := by
  decide

/-- C19 (amended): a location write with latitude or longitude null or absent, a status
write with isBusy null or absent, and a chat send for which `parseInt(senderId, 10)` or
`parseInt(receiverId, 10)` is `NaN` or that provides none of the four kinds of content are
each answered 400 with no statement sent, no event emitted, no geocoder call and the tables
as they were. For the location write this holds whatever the registry, tracking state and
admin header, so the answer is 400 and not 423. -/
theorem validation_errors_no_effect (app : App) (db : Db) (w : World) :
    (∀ req : LocationRequest,
        req.latitude.isNullish = true ∨ req.longitude.isNullish = true →
        (putAmbulance app req db w).status = 400 ∧
          (putAmbulance app req db w).queries = [] ∧
          (putAmbulance app req db w).events = [] ∧
          (putAmbulance app req db w).geocodeCalls = 0 ∧
          (putAmbulance app req db w).db = db) ∧
      (∀ isBusy : JsVal, isBusy.isNullish = true →
        (putAmbulanceStatus app isBusy db w).status = 400 ∧
          (putAmbulanceStatus app isBusy db w).queries = [] ∧
          (putAmbulanceStatus app isBusy db w).events = [] ∧
          (putAmbulanceStatus app isBusy db w).geocodeCalls = 0 ∧
          (putAmbulanceStatus app isBusy db w).db = db) ∧
      (∀ req : ChatRequest,
        (parseInt10 req.senderId = none ∨ parseInt10 req.receiverId = none ∨
          (req.content.isNonBlankString = false ∧ req.imageUrl.isNonBlankString = false ∧
            req.emoticonCode.isNonBlankString = false ∧
            (req.latitude.isNullish = true ∨ req.longitude.isNullish = true))) →
        (postChat app req db w).status = 400 ∧
          (postChat app req db w).queries = [] ∧
          (postChat app req db w).events = [] ∧
          (postChat app req db w).geocodeCalls = 0 ∧
          (postChat app req db w).db = db) := by
  refine ⟨?_, ?_, ?_⟩
  · intro req h
    rcases h with h | h <;> simp [putAmbulance, h]
  · intro isBusy h
    simp [putAmbulanceStatus, h]
  · intro req h
    rcases h with h | h | ⟨hc, him, hem, hloc⟩
    · have h' : req.sid = none := h
      simp [postChat, h']
    · have h' : req.rid = none := h
      cases hs : req.sid <;> simp [postChat, h', hs]
    · cases hs : req.sid with
      | none => simp [postChat, hs]
      | some sid =>
        cases hr : req.rid with
        | none => simp [postChat, hs, hr]
        | some rid => rcases hloc with h | h <;> simp [postChat, hs, hr, hc, him, hem, h]

theorem validation_errors_no_effect_witness :
    ((JsVal.undefined).isNullish = true ∨ (JsVal.num 7).isNullish = true) ∧
      (putAmbulance (App.ofIndex ⟨false, 0⟩) ⟨none, .undefined, .num 7, .bool true⟩
        ⟨some busyRow, tiedLog, sampleUsers⟩ quietWorld).status = 400 ∧
      (JsVal.null).isNullish = true ∧
      (putAmbulanceStatus (App.ofIndex ⟨false, 0⟩) .null
        ⟨some busyRow, tiedLog, sampleUsers⟩ quietWorld).status = 400 ∧
      (postChat (App.ofIndex ⟨false, 0⟩) (emptyChat 5 9)
        ⟨some busyRow, tiedLog, sampleUsers⟩ quietWorld).queries = [] ∧
      parseInt10 wordIdChat.senderId = none ∧
      (postChat (App.ofIndex ⟨false, 0⟩) wordIdChat
        ⟨some busyRow, tiedLog, sampleUsers⟩ quietWorld).status = 400 :=
  ⟨Or.inl rfl,
    ((validation_errors_no_effect (App.ofIndex ⟨false, 0⟩)
      ⟨some busyRow, tiedLog, sampleUsers⟩ quietWorld).1
      ⟨none, .undefined, .num 7, .bool true⟩ (Or.inl rfl)).1,
    rfl,
    ((validation_errors_no_effect (App.ofIndex ⟨false, 0⟩)
      ⟨some busyRow, tiedLog, sampleUsers⟩ quietWorld).2.1 .null rfl).1,
    ((validation_errors_no_effect (App.ofIndex ⟨false, 0⟩)
      ⟨some busyRow, tiedLog, sampleUsers⟩ quietWorld).2.2 (emptyChat 5 9)
      (Or.inr (Or.inr ⟨by decide, by decide, by decide, Or.inr rfl⟩))).2.1,
    by decide,
    ((validation_errors_no_effect (App.ofIndex ⟨false, 0⟩)
      ⟨some busyRow, tiedLog, sampleUsers⟩ quietWorld).2.2 wordIdChat
      (Or.inl (by decide))).1⟩

/-- C20: when a required statement throws, the answer is 500 and no event is emitted. For an
allowed location write with coordinates these are the existence check and the insert or
update of the row; for a status write with `isBusy` the update and the re-read; for a chat
send with parsed ids and some content the insert and the re-read. -/
theorem persistence_failure_500_no_event (app : App) (db : Db) (w : World)
    (hfail : w.dbFail 0 = true ∨ w.dbFail 1 = true) :
    (∀ req : LocationRequest,
        req.latitude.isNullish = false → req.longitude.isNullish = false →
        (app.trackingActive = true ∨ req.xAdminUpdate = some "true") →
        (putAmbulance app req db w).status = 500 ∧ (putAmbulance app req db w).events = []) ∧
      (∀ isBusy : JsVal, isBusy.isNullish = false →
        (putAmbulanceStatus app isBusy db w).status = 500 ∧
          (putAmbulanceStatus app isBusy db w).events = []) ∧
      (∀ req : ChatRequest, ∀ sid rid, req.sid = some sid → req.rid = some rid →
        (postChat app req db w).status ≠ 400 →
        (postChat app req db w).status = 500 ∧ (postChat app req db w).events = []) := by
  refine ⟨?_, ?_, ?_⟩
  · intro req hlat hlon hallow
    have hg : (!app.trackingActive && !decide (req.xAdminUpdate = some "true")) = false := by
      rcases hallow with h | h <;> simp [h]
    by_cases h0 : w.dbFail 0 = true
    · simp [putAmbulance, hlat, hlon, hg, h0]
    · have h1 : w.dbFail 1 = true := hfail.resolve_left h0
      simp [putAmbulance, hlat, hlon, hg, h0, h1]
  · intro isBusy hb
    by_cases h0 : w.dbFail 0 = true
    · simp [putAmbulanceStatus, hb, h0]
    · have h1 : w.dbFail 1 = true := hfail.resolve_left h0
      simp [putAmbulanceStatus, hb, h0, h1]
  · intro req sid rid hs hr h400
    cases hc : req.content.isNonBlankString <;>
      cases him : req.imageUrl.isNonBlankString <;>
      cases hem : req.emoticonCode.isNonBlankString <;>
      cases hlat : req.latitude.isNullish <;>
      cases hlon : req.longitude.isNullish <;>
      rcases hfail with h0 | h1 <;> by_cases h0' : w.dbFail 0 = true <;>
      simp_all [postChat]

theorem persistence_failure_500_no_event_witness :
    (brokenWorld.dbFail 0 = true ∨ brokenWorld.dbFail 1 = true) ∧
      (JsVal.num 5).isNullish = false ∧ (JsVal.num 7).isNullish = false ∧
      ((App.ofIndex ⟨true, 0⟩).trackingActive = true ∨
        (none : Option String) = some "true") ∧
      ((putAmbulance (App.ofIndex ⟨true, 0⟩) ⟨none, .num 5, .num 7, .undefined⟩
          ⟨some busyRow, tiedLog, sampleUsers⟩ brokenWorld).status = 500 ∧
        (putAmbulance (App.ofIndex ⟨true, 0⟩) ⟨none, .num 5, .num 7, .undefined⟩
          ⟨some busyRow, tiedLog, sampleUsers⟩ brokenWorld).events = []) ∧
      (JsVal.bool true).isNullish = false ∧
      ((putAmbulanceStatus (App.ofIndex ⟨true, 0⟩) (.bool true)
          ⟨some busyRow, tiedLog, sampleUsers⟩ brokenWorld).status = 500 ∧
        (putAmbulanceStatus (App.ofIndex ⟨true, 0⟩) (.bool true)
          ⟨some busyRow, tiedLog, sampleUsers⟩ brokenWorld).events = []) ∧
      (emoticonOnly 5 9).sid = some 5 ∧ (emoticonOnly 5 9).rid = some 9 ∧
      (postChat (App.ofIndex ⟨true, 0⟩) (emoticonOnly 5 9)
        ⟨some busyRow, tiedLog, sampleUsers⟩ brokenWorld).status ≠ 400 ∧
      ((postChat (App.ofIndex ⟨true, 0⟩) (emoticonOnly 5 9)
          ⟨some busyRow, tiedLog, sampleUsers⟩ brokenWorld).status = 500 ∧
        (postChat (App.ofIndex ⟨true, 0⟩) (emoticonOnly 5 9)
          ⟨some busyRow, tiedLog, sampleUsers⟩ brokenWorld).events = []) :=
  ⟨Or.inr rfl, rfl, rfl, Or.inl rfl,
    (persistence_failure_500_no_event (App.ofIndex ⟨true, 0⟩)
      ⟨some busyRow, tiedLog, sampleUsers⟩ brokenWorld (Or.inr rfl)).1
      ⟨none, .num 5, .num 7, .undefined⟩ rfl rfl (Or.inl rfl),
    rfl,
    (persistence_failure_500_no_event (App.ofIndex ⟨true, 0⟩)
      ⟨some busyRow, tiedLog, sampleUsers⟩ brokenWorld (Or.inr rfl)).2.1 (.bool true) rfl,
    rfl, rfl, by decide,
    (persistence_failure_500_no_event (App.ofIndex ⟨true, 0⟩)
      ⟨some busyRow, tiedLog, sampleUsers⟩ brokenWorld (Or.inr rfl)).2.2 (emoticonOnly 5 9)
      5 9 rfl rfl (by decide)⟩


/-! ## Room keys -/

/-- The digit characters core writes for a positive number are its decimal digits, most
significant first. -/
theorem toDigitsCore_eq_digits (fuel : Nat) : ∀ (n : Nat) (ds : List Char), n < fuel → n ≠ 0 →
    Nat.toDigitsCore 10 fuel n ds = ((Nat.digits 10 n).reverse.map Nat.digitChar) ++ ds := by
  induction fuel with
  | zero => intro n ds h; omega
  | succ fuel ih =>
    intro n ds hfuel hn
    rw [Nat.toDigitsCore]
    by_cases h : n / 10 = 0
    · have hlt : n < 10 := by omega
      simp only [h, if_true]
      rw [Nat.digits_of_lt 10 n hn hlt, Nat.mod_eq_of_lt hlt]
      rfl
    · simp only [h, if_false]
      rw [ih (n / 10) _ (by omega) h,
        Nat.digits_def' (by norm_num) (Nat.pos_of_ne_zero hn)]
      simp

theorem digitChar_injOn : ∀ a < 10, ∀ b < 10, Nat.digitChar a = Nat.digitChar b → a = b := by
  decide

theorem digitChar_ne_minus : ∀ a < 10, Nat.digitChar a ≠ '-' := by
  decide

theorem map_digitChar_inj : ∀ (l1 l2 : List Nat), (∀ d ∈ l1, d < 10) → (∀ d ∈ l2, d < 10) →
    l1.map Nat.digitChar = l2.map Nat.digitChar → l1 = l2 := by
  intro l1
  induction l1 with
  | nil => intro l2 _ _ h; cases l2 with
    | nil => rfl
    | cons b t => simp at h
  | cons a t ih =>
    intro l2 h1 h2 h
    cases l2 with
    | nil => simp at h
    | cons b t2 =>
      simp only [List.map_cons, List.cons.injEq] at h
      have hab := digitChar_injOn a (h1 a (List.mem_cons_self _ _)) b
        (h2 b (List.mem_cons_self _ _)) h.1
      rw [hab, ih t2 (fun d hd => h1 d (List.mem_cons_of_mem _ hd))
        (fun d hd => h2 d (List.mem_cons_of_mem _ hd)) h.2]

theorem toDigits_pos (n : Nat) (hn : n ≠ 0) :
    Nat.toDigits 10 n = (Nat.digits 10 n).reverse.map Nat.digitChar := by
  rw [Nat.toDigits, toDigitsCore_eq_digits (n + 1) n [] (by omega) hn, List.append_nil]

theorem toDigits_chars (n : Nat) : ∀ c ∈ Nat.toDigits 10 n, c ≠ '-' := by
  by_cases hn : n = 0
  · subst hn; decide
  · rw [toDigits_pos n hn]
    intro c hc
    simp only [List.mem_map, List.mem_reverse] at hc
    obtain ⟨d, hd, rfl⟩ := hc
    exact digitChar_ne_minus d (Nat.digits_lt_base (by norm_num) hd)

theorem digits_ne_singleton_zero (b : Nat) : Nat.digits 10 b ≠ [0] := by
  intro hd
  have h := Nat.ofDigits_digits 10 b
  rw [hd] at h
  have hb : b = 0 := by simpa using h.symm
  rw [hb] at hd
  simp at hd

theorem toDigits_injective : Function.Injective (Nat.toDigits 10) := by
  intro a b h
  have hz : Nat.toDigits 10 0 = [0].map Nat.digitChar := by decide
  have hlt : ∀ n : Nat, ∀ d ∈ (Nat.digits 10 n).reverse, d < 10 :=
    fun n d hd => Nat.digits_lt_base (by norm_num) (List.mem_reverse.mp hd)
  have hzero : ∀ d ∈ [0], d < 10 := by decide
  by_cases ha : a = 0 <;> by_cases hb : b = 0
  · rw [ha, hb]
  · exfalso
    subst ha
    rw [hz, toDigits_pos b hb] at h
    have h' := map_digitChar_inj _ _ hzero (hlt b) h
    apply digits_ne_singleton_zero b
    have := congrArg List.reverse h'
    simpa using this.symm
  · exfalso
    subst hb
    rw [hz, toDigits_pos a ha] at h
    have h' := map_digitChar_inj _ _ (hlt a) hzero h
    apply digits_ne_singleton_zero a
    have := congrArg List.reverse h'
    simpa using this
  · rw [toDigits_pos a ha, toDigits_pos b hb] at h
    have h' := map_digitChar_inj _ _ (hlt a) (hlt b) h
    exact Nat.digits.injective 10 (List.reverse_injective h')

/-- The expression `String(id)` gives different keys for different integers. -/
theorem roomKey_injective : Function.Injective roomKey := by
  intro a b h
  have hdata : (roomKey a).data = (roomKey b).data := by rw [h]
  cases a with
  | ofNat m =>
    cases b with
    | ofNat n =>
      have hmn : Nat.toDigits 10 m = Nat.toDigits 10 n := hdata
      rw [toDigits_injective hmn]
    | negSucc n =>
      exfalso
      have hmn : Nat.toDigits 10 m = '-' :: Nat.toDigits 10 (n + 1) := hdata
      exact toDigits_chars m '-' (by rw [hmn]; exact List.mem_cons_self _ _) rfl
  | negSucc m =>
    cases b with
    | ofNat n =>
      exfalso
      have hmn : '-' :: Nat.toDigits 10 (m + 1) = Nat.toDigits 10 n := hdata
      exact toDigits_chars n '-' (by rw [← hmn]; exact List.mem_cons_self _ _) rfl
    | negSucc n =>
      have hmn : '-' :: Nat.toDigits 10 (m + 1) = '-' :: Nat.toDigits 10 (n + 1) := hdata
      have := toDigits_injective (List.cons_injective hmn)
      have hmn' : m = n := by omega
      rw [hmn']

/-! ## Clearing a conversation, chat events -/

/-- C14: when the clearing statement succeeds, `DELETE /chat/clear/:userId/:targetId` answers
200 and leaves in `messages` exactly the rows, in their order and unchanged, whose
(sender, receiver) is neither (userId, targetId) nor (targetId, userId); a row is stored
afterwards exactly when it was stored before and is not of the pair. The reported
`deletedCount` is the number of rows removed, and the other tables are untouched. -/
theorem clearChat_removes_pair (app : App) (userId targetId : Int) (db : Db) (w : World)
    (h : w.dbFail 0 = false) :
    (clearChat app (some userId) (some targetId) db w).status = 200 ∧
      (clearChat app (some userId) (some targetId) db w).db.messages =
        db.messages.filter (fun m =>
          decide ¬ ((m.senderId = userId ∧ m.receiverId = targetId) ∨
            (m.senderId = targetId ∧ m.receiverId = userId))) ∧
      (∀ m, m ∈ (clearChat app (some userId) (some targetId) db w).db.messages ↔
        m ∈ db.messages ∧ ¬ ((m.senderId = userId ∧ m.receiverId = targetId) ∨
          (m.senderId = targetId ∧ m.receiverId = userId))) ∧
      (∃ msg n, (clearChat app (some userId) (some targetId) db w).body = .cleared msg n ∧
        n + (clearChat app (some userId) (some targetId) db w).db.messages.length =
          db.messages.length ∧
        n = (db.messages.filter (fun m =>
          decide ((m.senderId = userId ∧ m.receiverId = targetId) ∨
            (m.senderId = targetId ∧ m.receiverId = userId)))).length) ∧
      (clearChat app (some userId) (some targetId) db w).db.location = db.location ∧
      (clearChat app (some userId) (some targetId) db w).db.users = db.users := by
  have hkeep : (clearChat app (some userId) (some targetId) db w).db.messages =
      db.messages.filter (fun m =>
        decide ¬ ((m.senderId = userId ∧ m.receiverId = targetId) ∨
          (m.senderId = targetId ∧ m.receiverId = userId))) := by
    simp only [clearChat, h, Query.run]
    apply List.filter_congr
    intro m _
    simp [clearMatches]
  have hcount : clearAffectedRows userId targetId db.messages =
      (db.messages.filter (fun m =>
        decide ((m.senderId = userId ∧ m.receiverId = targetId) ∨
          (m.senderId = targetId ∧ m.receiverId = userId)))).length := by
    simp only [clearAffectedRows]
    congr 1
    apply List.filter_congr
    intro m _
    simp [clearMatches]
  refine ⟨by simp [clearChat, h], hkeep, ?_, ?_, by simp [clearChat, h, Query.run],
    by simp [clearChat, h, Query.run]⟩
  · intro m
    rw [hkeep]
    simp only [List.mem_filter, decide_eq_true_eq]
  · refine ⟨"All messages cleared successfully",
      clearAffectedRows userId targetId db.messages, by simp [clearChat, h], ?_, hcount⟩
    have hlen := List.length_eq_length_filter_add (l := db.messages)
      (clearMatches userId targetId)
    have hdb : (clearChat app (some userId) (some targetId) db w).db.messages =
        db.messages.filter (fun m => !clearMatches userId targetId m) := by
      simp [clearChat, h, Query.run]
    rw [hdb, clearAffectedRows]
    omega

theorem clearChat_removes_pair_witness :
    quietWorld.dbFail 0 = false ∧
      (clearChat (App.ofIndex ⟨true, 0⟩) (some 1) (some 2)
        ⟨none, exampleLog 10 20 30, sampleUsers⟩ quietWorld).status = 200 ∧
      (clearChat (App.ofIndex ⟨true, 0⟩) (some 1) (some 2)
        ⟨none, exampleLog 10 20 30, sampleUsers⟩ quietWorld).db.messages =
        [textMessage 3 1 3 "z" 20] :=
  ⟨rfl,
    (clearChat_removes_pair (App.ofIndex ⟨true, 0⟩) 1 2
      ⟨none, exampleLog 10 20 30, sampleUsers⟩ quietWorld rfl).1,
    by decide⟩


theorem id_lt_succ_maxId {messages : List Message} {m : Message} (h : m ∈ messages) :
    m.id < (messages.map (fun m => m.id)).foldr max 0 + 1 := by
  induction messages with
  | nil => cases h
  | cons a t ih =>
    simp only [List.map_cons, List.foldr_cons] at ih ⊢
    rcases List.mem_cons.mp h with rfl | h
    · exact Nat.lt_succ_of_le (le_max_left _ _)
    · exact Nat.lt_succ_of_le (le_trans (Nat.le_of_lt_succ (ih h)) (le_max_right _ _))

/-- The key given to an inserted message is above every id stored. -/
theorem id_lt_insertIdOf (counter : Nat) {messages : List Message} {m : Message}
    (h : m ∈ messages) : m.id < insertIdOf counter messages :=
  lt_of_lt_of_le (id_lt_succ_maxId h) (le_max_right _ _)

/-- Two emits to rooms: how many of them address a given key. -/
theorem emitsToRoom_pair (key k1 k2 : String) (ev1 ev2 : String) (p1 p2 : Payload) :
    emitsToRoom key [⟨.room k1, ev1, p1⟩, ⟨.room k2, ev2, p2⟩] =
      (if k1 = key then 1 else 0) + (if k2 = key then 1 else 0) := by
  by_cases h1 : k1 = key <;> by_cases h2 : k2 = key <;>
    simp [emitsToRoom, List.filter, h1, h2]

/-- C15, as stated, fails when sender and receiver coincide: a message from user 5 to user 5
is accepted and the room `String(5)` is addressed twice. -/
theorem postChat_self_message_addresses_room_twice :
    (postChat (App.ofIndex ⟨true, 0⟩) (emoticonOnly 5 5) ⟨none, tiedLog, sampleUsers⟩
        quietWorld).status = 200 ∧
      emitsToRoom (roomKey 5)
        (postChat (App.ofIndex ⟨true, 0⟩) (emoticonOnly 5 5) ⟨none, tiedLog, sampleUsers⟩
          quietWorld).events = 2 := by
  decide

/-- C15 (amended): a chat send answered 200 emits `newMessage` exactly twice, first to the
room `String(r)` of the receiver and then to the room `String(s)` of the sender, with the
inserted row as payload; a clearing answered 200 emits `conversationCleared` exactly twice, to
`String(userId)` and to `String(targetId)`. Neither emits to everyone, no other room is
addressed, and when the two participants differ each of the two rooms is addressed once. -/
theorem chat_events_targeted (s : AmbulanceTrackingState) (db : Db) (w : World) :
    (∀ (req : ChatRequest) (sid rid : Int), req.sid = some sid → req.rid = some rid →
        (postChat (App.ofIndex s) req db w).status = 200 →
        (∃ row, row.senderId = sid ∧ row.receiverId = rid ∧
          (postChat (App.ofIndex s) req db w).db.messages = db.messages ++ [row] ∧
          (postChat (App.ofIndex s) req db w).events =
            [⟨.room (roomKey rid), "newMessage", .message (some row)⟩,
             ⟨.room (roomKey sid), "newMessage", .message (some row)⟩]) ∧
        (∀ e ∈ (postChat (App.ofIndex s) req db w).events, e.target ≠ .everyone) ∧
        (∀ key, key ≠ roomKey sid → key ≠ roomKey rid →
          emitsToRoom key (postChat (App.ofIndex s) req db w).events = 0) ∧
        (sid ≠ rid →
          emitsToRoom (roomKey sid) (postChat (App.ofIndex s) req db w).events = 1 ∧
          emitsToRoom (roomKey rid) (postChat (App.ofIndex s) req db w).events = 1)) ∧
      (∀ userId targetId : Int,
        (clearChat (App.ofIndex s) (some userId) (some targetId) db w).status = 200 →
        (clearChat (App.ofIndex s) (some userId) (some targetId) db w).events =
            [⟨.room (roomKey userId), "conversationCleared",
                .conversationCleared userId targetId⟩,
             ⟨.room (roomKey targetId), "conversationCleared",
                .conversationCleared targetId userId⟩] ∧
        (∀ e ∈ (clearChat (App.ofIndex s) (some userId) (some targetId) db w).events,
          e.target ≠ .everyone) ∧
        (∀ key, key ≠ roomKey userId → key ≠ roomKey targetId →
          emitsToRoom key
            (clearChat (App.ofIndex s) (some userId) (some targetId) db w).events = 0) ∧
        (userId ≠ targetId →
          emitsToRoom (roomKey userId)
            (clearChat (App.ofIndex s) (some userId) (some targetId) db w).events = 1 ∧
          emitsToRoom (roomKey targetId)
            (clearChat (App.ofIndex s) (some userId) (some targetId) db w).events = 1)) := by
  constructor
  · intro req sid rid hs hr h200
    have hev : ∃ row, row.senderId = sid ∧ row.receiverId = rid ∧
        (postChat (App.ofIndex s) req db w).db.messages = db.messages ++ [row] ∧
        (postChat (App.ofIndex s) req db w).events =
          [⟨.room (roomKey rid), "newMessage", .message (some row)⟩,
           ⟨.room (roomKey sid), "newMessage", .message (some row)⟩] := by
      have hno : ∀ x ∈ db.messages, ¬ x.id = insertIdOf w.nextMessageId db.messages :=
        fun x hx => Nat.ne_of_lt (id_lt_insertIdOf w.nextMessageId hx)
      cases hc : req.content.isNonBlankString <;>
        cases him : req.imageUrl.isNonBlankString <;>
        cases hem : req.emoticonCode.isNonBlankString <;>
        cases hlat : req.latitude.isNullish <;>
        cases hlon : req.longitude.isNullish <;>
        by_cases h0 : w.dbFail 0 = true <;> by_cases h1 : w.dbFail 1 = true <;>
        simp [postChat, insertQuery, Query.run, App.ofIndex, hs, hr, h0, h1, hc, him, hem,
          hlat, hlon] at h200 ⊢ <;>
        exact ⟨_, rfl, rfl, rfl, Or.inr ⟨hno, rfl⟩⟩
    obtain ⟨row, hsid, hrid, hdb, hevents⟩ := hev
    refine ⟨⟨row, hsid, hrid, hdb, hevents⟩, ?_, ?_, ?_⟩
    · rw [hevents]
      intro e he
      simp only [List.mem_cons, List.mem_singleton, List.not_mem_nil, or_false] at he
      rcases he with rfl | rfl <;> simp
    · intro key h1 h2
      rw [hevents, emitsToRoom_pair]
      simp [Ne.symm h1, Ne.symm h2]
    · intro hne
      have hk : roomKey sid ≠ roomKey rid := fun h => hne (roomKey_injective h)
      rw [hevents, emitsToRoom_pair, emitsToRoom_pair]
      simp [hk, Ne.symm hk]
  · intro userId targetId h200
    have hevents : (clearChat (App.ofIndex s) (some userId) (some targetId) db w).events =
        [⟨.room (roomKey userId), "conversationCleared",
            .conversationCleared userId targetId⟩,
         ⟨.room (roomKey targetId), "conversationCleared",
            .conversationCleared targetId userId⟩] := by
      by_cases h0 : w.dbFail 0 = true <;> simp [clearChat, App.ofIndex, h0] at h200 ⊢
    refine ⟨hevents, ?_, ?_, ?_⟩
    · rw [hevents]
      intro e he
      simp only [List.mem_cons, List.mem_singleton, List.not_mem_nil, or_false] at he
      rcases he with rfl | rfl <;> simp
    · intro key h1 h2
      rw [hevents, emitsToRoom_pair]
      simp [Ne.symm h1, Ne.symm h2]
    · intro hne
      have hk : roomKey userId ≠ roomKey targetId := fun h => hne (roomKey_injective h)
      rw [hevents, emitsToRoom_pair, emitsToRoom_pair]
      simp [hk, Ne.symm hk]

theorem chat_events_targeted_witness :
    (emoticonOnly 5 9).sid = some 5 ∧ (emoticonOnly 5 9).rid = some 9 ∧
      (postChat (App.ofIndex ⟨true, 0⟩) (emoticonOnly 5 9) ⟨none, tiedLog, sampleUsers⟩
        quietWorld).status = 200 ∧
      (5 : Int) ≠ 9 ∧
      (emitsToRoom (roomKey 5)
          (postChat (App.ofIndex ⟨true, 0⟩) (emoticonOnly 5 9) ⟨none, tiedLog, sampleUsers⟩
            quietWorld).events = 1 ∧
        emitsToRoom (roomKey 9)
          (postChat (App.ofIndex ⟨true, 0⟩) (emoticonOnly 5 9) ⟨none, tiedLog, sampleUsers⟩
            quietWorld).events = 1) ∧
      (clearChat (App.ofIndex ⟨true, 0⟩) (some 5) (some 9) ⟨none, tiedLog, sampleUsers⟩
        quietWorld).status = 200 ∧
      (clearChat (App.ofIndex ⟨true, 0⟩) (some 5) (some 9) ⟨none, tiedLog, sampleUsers⟩
        quietWorld).events =
        [⟨.room (roomKey 5), "conversationCleared", .conversationCleared 5 9⟩,
         ⟨.room (roomKey 9), "conversationCleared", .conversationCleared 9 5⟩] :=
  ⟨rfl, rfl, by decide, by decide,
    ((chat_events_targeted ⟨true, 0⟩ ⟨none, tiedLog, sampleUsers⟩ quietWorld).1
      (emoticonOnly 5 9) 5 9 rfl rfl (by decide)).2.2.2 (by decide),
    by decide,
    ((chat_events_targeted ⟨true, 0⟩ ⟨none, tiedLog, sampleUsers⟩ quietWorld).2 5 9
      (by decide)).1⟩

/-- When the delete statement succeeds, `DELETE /chat/:id` answers 200 and emits
`messageDeleted` once, with the id as received, through `io.emit`: the event reaches every
connected client whatever rooms it joined, and no room is addressed. -/
theorem deleteChatMessage_broadcasts (s : AmbulanceTrackingState) (messageId : String)
    (db : Db) (w : World) (h : w.dbFail 0 = false) :
    (deleteChatMessage (App.ofIndex s) messageId db w).status = 200 ∧
      (deleteChatMessage (App.ofIndex s) messageId db w).events =
        [⟨.everyone, "messageDeleted", .messageDeleted messageId⟩] ∧
      (∀ joined : List JsVal, ∀ e ∈ (deleteChatMessage (App.ofIndex s) messageId db w).events,
        e.reaches joined = true) ∧
      (∀ key, emitsToRoom key (deleteChatMessage (App.ofIndex s) messageId db w).events = 0) := by
  have hev : (deleteChatMessage (App.ofIndex s) messageId db w).events =
      [⟨.everyone, "messageDeleted", .messageDeleted messageId⟩] := by
    simp [deleteChatMessage, App.ofIndex, h]
  refine ⟨by simp [deleteChatMessage, h], hev, ?_, ?_⟩
  · intro joined e he
    rw [hev] at he
    simp only [List.mem_singleton] at he
    subst he
    rfl
  · intro key
    rw [hev]
    simp [emitsToRoom, List.filter]

/-- C16: the code at the failing input. Message 1 was exchanged between users 1 and 2. The
request `DELETE /chat/1` removes it and emits `messageDeleted` once, to everyone and to no
room, so the event reaches a client that joined only the room of user 9. The clearing of the
conversation of users 1 and 2, in the same file, addresses the rooms of the two
participants, and none of its events reaches that client. -/
theorem deleteChatMessage_reaches_outsider :
    (deleteChatMessage (App.ofIndex ⟨true, 0⟩) "1" ⟨none, tiedLog, sampleUsers⟩
        quietWorld).events = [⟨.everyone, "messageDeleted", .messageDeleted "1"⟩] ∧
      (deleteChatMessage (App.ofIndex ⟨true, 0⟩) "1" ⟨none, tiedLog, sampleUsers⟩
        quietWorld).db.messages = [textMessage 2 2 1 "thanks" 5] ∧
      ((deleteChatMessage (App.ofIndex ⟨true, 0⟩) "1" ⟨none, tiedLog, sampleUsers⟩
        quietWorld).events.all fun e => e.reaches [.str (roomKey 9)]) = true ∧
      (clearChat (App.ofIndex ⟨true, 0⟩) (some 1) (some 2) ⟨none, tiedLog, sampleUsers⟩
        quietWorld).events.map (fun e => e.target) = [.room "1", .room "2"] ∧
      ((clearChat (App.ofIndex ⟨true, 0⟩) (some 1) (some 2) ⟨none, tiedLog, sampleUsers⟩
        quietWorld).events.any fun e => e.reaches [.str (roomKey 9)]) = false := by
  decide

/-! ## Connection handler -/

/-- The events emitted while handling client events extend the ones emitted before, and
none of the added ones is `trackingStatus`. -/
theorem foldl_handle_emitted (events : List (ClientEvent × Nat)) :
    ∀ c : Connection, ∃ rest,
      (events.foldl (fun c e => c.handle e.1 e.2) c).emitted = c.emitted ++ rest ∧
      ∀ e ∈ rest, e.event ≠ "trackingStatus" := by
  induction events with
  | nil => intro c; exact ⟨[], by simp, by simp⟩
  | cons ev evs ih =>
    intro c
    obtain ⟨rest, hrest, hno⟩ := ih (c.handle ev.1 ev.2)
    have hstep : ∃ added, (c.handle ev.1 ev.2).emitted = c.emitted ++ added ∧
        ∀ e ∈ added, e.event ≠ "trackingStatus" := by
      rcases ev with ⟨ev, now⟩
      cases ev with
      | join userId => exact ⟨[], by simp [Connection.handle, onJoin], by simp⟩
      | disconnect => exact ⟨[], by simp [Connection.handle, onDisconnect], by simp⟩
      | toggleAmbulanceTracking data =>
        cases data with
        | missing =>
          exact ⟨_, rfl, by
            intro e he
            simp only [List.mem_singleton] at he
            subst he
            simp⟩
        | object enabled =>
          refine ⟨_, rfl, ?_⟩
          intro e he
          simp only [List.mem_cons, List.mem_singleton, List.not_mem_nil, or_false] at he
          rcases he with rfl | rfl
          · split <;> simp
          · simp
    obtain ⟨added, hadded, hno'⟩ := hstep
    refine ⟨added ++ rest, ?_, ?_⟩
    · rw [List.foldl_cons, hrest, hadded, List.append_assoc]
    · intro e he
      rcases List.mem_append.mp he with h | h
      · exact hno' e h
      · exact hno e h

/-- C17: for every tracking state, handling a connection emits to the new socket exactly one
event, `trackingStatus`, whose `trackingActive` and `lastToggleTime` are those of the state at
that moment; the socket has joined no room then and no client event has been handled. In
every session that follows, whatever the client sends, this event is the first one emitted
and no other `trackingStatus` is emitted. -/
theorem connection_sends_trackingStatus_first (s : AmbulanceTrackingState) (now : Nat)
    (events : List (ClientEvent × Nat)) :
    (onConnection s now).emitted =
        [⟨.sender, "trackingStatus",
          .tracking { trackingActive := s.isActive, lastToggleTime := s.lastToggleTime,
                      timestamp := now }⟩] ∧
      (onConnection s now).rooms = [] ∧
      (onConnection s now).tracking = s ∧
      socketSession s now [] = onConnection s now ∧
      ∃ rest, (socketSession s now events).emitted =
          ⟨.sender, "trackingStatus",
            .tracking { trackingActive := s.isActive, lastToggleTime := s.lastToggleTime,
                        timestamp := now }⟩ :: rest ∧
        ∀ e ∈ rest, e.event ≠ "trackingStatus" := by
  refine ⟨rfl, rfl, rfl, rfl, ?_⟩
  obtain ⟨rest, hrest, hno⟩ := foldl_handle_emitted events (onConnection s now)
  exact ⟨rest, hrest, hno⟩

theorem connection_sends_trackingStatus_first_witness :
    ∃ rest, (socketSession ⟨false, 5⟩ 10
        [(.toggleAmbulanceTracking (.object (.bool true)), 11), (.join (.num 5), 12),
          (.toggleAmbulanceTracking .missing, 13)]).emitted =
        ⟨.sender, "trackingStatus",
          .tracking { trackingActive := false, lastToggleTime := 5, timestamp := 10 }⟩ ::
          rest ∧
      ∀ e ∈ rest, e.event ≠ "trackingStatus" :=
  (connection_sends_trackingStatus_first ⟨false, 5⟩ 10
    [(.toggleAmbulanceTracking (.object (.bool true)), 11), (.join (.num 5), 12),
      (.toggleAmbulanceTracking .missing, 13)]).2.2.2.2


/-! ## Monotone toggle time -/

/-- A call leaves `lastToggleTime` as it was or sets it to the clock reading of the call. -/
theorem apply_lastToggleTime (call : TrackingCall) (s : AmbulanceTrackingState) (now : Nat) :
    (call.apply s now).lastToggleTime = s.lastToggleTime ∨
      (call.apply s now).lastToggleTime = now := by
  cases call with
  | toggle enabled => right; rfl
  | getStatus => left; rfl
  | isEnabled => left; rfl

/-- C18: let the clock readings of a sequence of `toggle`, `getStatus` and `isEnabled` calls
be non-decreasing and start no earlier than the current `lastToggleTime` (itself a reading of
that clock). Then `lastToggleTime` never decreases along the states the calls go through.
Each `toggle` sets `lastToggleTime` to its reading, which is at least the previous value, and
`getStatus` and `isEnabled` change neither field. -/
theorem lastToggleTime_monotone (s : AmbulanceTrackingState) (calls : List (TrackingCall × Nat))
    (hclock : List.Pairwise (fun a b : Nat => a ≤ b)
      (s.lastToggleTime :: calls.map (fun c => c.2))) :
    List.Pairwise (fun a b : AmbulanceTrackingState => a.lastToggleTime ≤ b.lastToggleTime)
        (s :: statesAfter s calls) ∧
      (∀ (s' : AmbulanceTrackingState) (enabled : JsVal) (now : Nat),
        s'.lastToggleTime ≤ now →
        ((TrackingCall.toggle enabled).apply s' now).lastToggleTime = now ∧
        s'.lastToggleTime ≤ ((TrackingCall.toggle enabled).apply s' now).lastToggleTime) ∧
      (∀ (s' : AmbulanceTrackingState) (now : Nat),
        TrackingCall.getStatus.apply s' now = s' ∧ TrackingCall.isEnabled.apply s' now = s' ∧
        (s'.getStatus now).trackingActive = s'.isActive ∧
        (s'.getStatus now).lastToggleTime = s'.lastToggleTime ∧
        s'.isEnabled = s'.isActive) := by
  refine ⟨?_, ?_, ?_⟩
  · induction calls generalizing s with
    | nil => simp [statesAfter]
    | cons c rest ih =>
      rcases c with ⟨call, now⟩
      simp only [List.map_cons, List.pairwise_cons, List.mem_cons, forall_eq_or_imp,
        List.mem_map] at hclock
      obtain ⟨⟨hnow, hlater⟩, hnowlater, hrest⟩ := hclock
      have hnext : List.Pairwise (fun a b : Nat => a ≤ b)
          ((call.apply s now).lastToggleTime :: rest.map (fun c => c.2)) := by
        rw [List.pairwise_cons]
        refine ⟨?_, hrest⟩
        intro t ht
        rcases apply_lastToggleTime call s now with h | h
        · rw [h]; exact hlater t (List.mem_map.mp ht)
        · rw [h]; exact hnowlater t (List.mem_map.mp ht)
      have hih := ih (call.apply s now) hnext
      have hstep : s.lastToggleTime ≤ (call.apply s now).lastToggleTime := by
        rcases apply_lastToggleTime call s now with h | h
        · rw [h]
        · rw [h]; exact hnow
      simp only [statesAfter]
      rw [List.pairwise_cons]
      refine ⟨?_, hih⟩
      intro x hx
      rcases List.mem_cons.mp hx with rfl | hx'
      · exact hstep
      · exact le_trans hstep ((List.pairwise_cons.mp hih).1 x hx')
  · intro s' enabled now h
    exact ⟨rfl, h⟩
  · intro s' now
    exact ⟨rfl, rfl, rfl, rfl, rfl⟩

theorem lastToggleTime_monotone_witness :
    List.Pairwise (fun a b : Nat => a ≤ b)
        ((AmbulanceTrackingState.create 5).lastToggleTime ::
          [(TrackingCall.toggle (.num 1), 7), (TrackingCall.getStatus, 8),
            (TrackingCall.toggle (.bool true), 8)].map (fun c => c.2)) ∧
      List.Pairwise (fun a b : AmbulanceTrackingState => a.lastToggleTime ≤ b.lastToggleTime)
        (AmbulanceTrackingState.create 5 ::
          statesAfter (AmbulanceTrackingState.create 5)
            [(TrackingCall.toggle (.num 1), 7), (TrackingCall.getStatus, 8),
              (TrackingCall.toggle (.bool true), 8)]) :=
  ⟨by decide,
    (lastToggleTime_monotone (AmbulanceTrackingState.create 5)
      [(TrackingCall.toggle (.num 1), 7), (TrackingCall.getStatus, 8),
        (TrackingCall.toggle (.bool true), 8)] (by decide)).1⟩


/-! ## Tracking endpoints and the order of registration -/

/-- The endpoints of the handlers modelled above are answered by their routes: they are
registered before the handler that answers 404. -/
theorem modelled_routes_reached (files : List String → Bool) (id a b : String) :
    dispatch files .put ["api", "ambulance"] indexStack = some (.ambulanceRoute 1) ∧
      dispatch files .put ["api", "ambulance", "status"] indexStack =
        some (.ambulanceRoute 3) ∧
      dispatch files .get ["api", "chat", "conversation", id] indexStack =
        some (.chatRoute 0) ∧
      dispatch files .post ["api", "chat"] indexStack = some (.chatRoute 2) ∧
      dispatch files .delete ["api", "chat", id] indexStack = some (.chatRoute 3) ∧
      dispatch files .delete ["api", "chat", "clear", a, b] indexStack =
        some (.chatRoute 4) := by
  refine ⟨rfl, rfl, ?_, rfl, ?_, ?_⟩ <;>
    simp [dispatch, indexStack, below, firstMatch, pathMatches, Segment.accepts, authRoutes,
      commentsRoutes, ambulanceRoutes, chatRoutes]

/-- A request `POST /api/ambulance/tracking/toggle` is answered by the 404 handler, and so is
`GET /api/ambulance/tracking/status`: no earlier layer matches, and the 404 handler is
registered before the two tracking routes. -/
theorem dispatch_tracking_routes (files : List String → Bool) :
    dispatch files .post togglePath indexStack = some .notFound ∧
      dispatch files .get ["api", "ambulance", "tracking", "status"] indexStack =
        some .notFound :=
  ⟨rfl, rfl⟩

/-- Whatever the state and the body, the application answers the toggle request with 404,
leaves the tracking state as it was and emits nothing. -/
theorem serveTracking_toggle (files : List String → Bool) (s : AmbulanceTrackingState)
    (body : ToggleData) (now : Nat) :
    serveTracking files s .post togglePath body now = some (notFoundAnswer s) := rfl

/-- The toggle handler, when it runs on a body with an `enabled` value, emits exactly one
event, to everyone: `ambulanceTrackingEnabled` when the new state is active and
`ambulanceTrackingDisabled` otherwise, with the new state as `trackingActive`. -/
theorem trackingToggleRoute_emits_one (s : AmbulanceTrackingState) (enabled : JsVal)
    (now : Nat) :
    (trackingToggleRoute s (.object enabled) now).tracking.isActive =
        decide (enabled = JsVal.bool true) ∧
      (trackingToggleRoute s (.object enabled) now).events =
        [⟨.everyone,
          if enabled = JsVal.bool true then "ambulanceTrackingEnabled"
          else "ambulanceTrackingDisabled",
          .tracking { trackingActive := decide (enabled = JsVal.bool true),
                      lastToggleTime := now, timestamp := now }⟩] := by
  have h : enabled.strictEqTrue = decide (enabled = JsVal.bool true) := by
    cases enabled with
    | bool b => cases b <;> simp [JsVal.strictEqTrue]
    | _ => simp [JsVal.strictEqTrue]
  by_cases he : enabled = JsVal.bool true
  · subst he
    simp [trackingToggleRoute, AmbulanceTrackingState.toggle,
      AmbulanceTrackingState.getStatus, JsVal.strictEqTrue]
  · have h' : enabled.strictEqTrue = false := by rw [h]; simp [he]
    simp [trackingToggleRoute, AmbulanceTrackingState.toggle,
      AmbulanceTrackingState.getStatus, h', he]

/-- The two toggle handlers, run on the same state and the same argument, leave the same
tracking state and emit the same events to everyone. -/
theorem toggle_handlers_agree (s : AmbulanceTrackingState) (rooms : List JsVal)
    (data : ToggleData) (now : Nat) :
    (onToggleAmbulanceTracking ⟨s, rooms, []⟩ data now).tracking =
        (trackingToggleRoute s data now).tracking ∧
      globalEvents (onToggleAmbulanceTracking ⟨s, rooms, []⟩ data now).emitted =
        (trackingToggleRoute s data now).events := by
  cases data with
  | missing => simp [onToggleAmbulanceTracking, trackingToggleRoute, globalEvents]
  | object enabled =>
    cases h : enabled.strictEqTrue <;>
      simp [onToggleAmbulanceTracking, trackingToggleRoute, globalEvents,
        AmbulanceTrackingState.toggle, h]

/-- C21: the code at the failing input. With tracking active, the request
`POST /api/ambulance/tracking/toggle` with body `enabled: false` goes down the stack of
`index.js` to the handler that answers 404 to everything, registered before the toggle
route: the answer is 404, the tracking state is unchanged and no event is emitted. The toggle
handler, had it run, would have emitted one `ambulanceTrackingDisabled` to everyone. -/
theorem post_toggle_answered_404 :
    dispatch noFiles .post togglePath indexStack = some .notFound ∧
      serveTracking noFiles ⟨true, 0⟩ .post togglePath (.object (.bool false)) 1000 =
        some { status := 404, body := .error "Endpoint not found", tracking := ⟨true, 0⟩,
               events := [] } ∧
      (trackingToggleRoute ⟨true, 0⟩ (.object (.bool false)) 1000).events =
        [⟨.everyone, "ambulanceTrackingDisabled",
          .tracking { trackingActive := false, lastToggleTime := 1000,
                      timestamp := 1000 }⟩] := by
  decide

/-- C22: the code at the failing input. With tracking active, the socket event
`toggleAmbulanceTracking` with `enabled: false` makes tracking inactive and emits
`ambulanceTrackingDisabled` to everyone, while the request
`POST /api/ambulance/tracking/toggle` with the same body is answered 404, leaves tracking
active and emits nothing. -/
theorem socket_toggle_not_mirrored_by_post :
    (onToggleAmbulanceTracking freshSocket (.object (.bool false)) 1000).tracking =
        ⟨false, 1000⟩ ∧
      globalEvents (onToggleAmbulanceTracking freshSocket (.object (.bool false)) 1000).emitted =
        [⟨.everyone, "ambulanceTrackingDisabled",
          .tracking { trackingActive := false, lastToggleTime := 1000,
                      timestamp := 1000 }⟩] ∧
      (serveTracking noFiles freshSocket.tracking .post togglePath (.object (.bool false))
          1000).map (fun o => (o.status, o.tracking, o.events)) =
        some (404, ⟨true, 0⟩, []) := by
  decide

/-! ## Room keys of joined clients -/

/-- A client that joined with the decimal string of a user id is reached by every event
addressed to the room `String(id)`. -/
theorem join_string_reached (c : Connection) (id : Int) (event : String) (p : Payload) :
    Emit.reaches (onJoin c (.str (roomKey id))).rooms ⟨.room (roomKey id), event, p⟩ = true := by
  by_cases h : JsVal.str (roomKey id) ∈ c.rooms <;> simp [Emit.reaches, onJoin, joinKeys, h]

/-- A client whose only join carried the user id as a number is registered under that
number, which is not the string `String(id)`, and no event addressed to the room `String(id)`
reaches it. -/
theorem join_number_not_reached (s : AmbulanceTrackingState) (emitted : List Emit) (id : Int)
    (event : String) (p : Payload) :
    (onJoin ⟨s, [], emitted⟩ (.num id)).rooms = [.num id] ∧
      JsVal.num id ≠ JsVal.str (roomKey id) ∧
      Emit.reaches (onJoin ⟨s, [], emitted⟩ (.num id)).rooms ⟨.room (roomKey id), event, p⟩ =
        false := by
  refine ⟨by simp [onJoin, joinKeys], by simp, by simp [Emit.reaches, onJoin, joinKeys]⟩

/-- C23: the code at the failing input. A client joins with the number 5: the key passed to
`socket.join` is the number 5, not the string `String(5)`. A message from user 9 to user 5 is
then emitted to the rooms `String(5)` and `String(9)`, and none of the two emits reaches that
client; it reaches a client that joined with the string `5`. -/
theorem join_with_number_misses_chat :
    (onJoin freshSocket (.num 5)).rooms = [.num 5] ∧
      JsVal.num 5 ≠ JsVal.str (roomKey 5) ∧
      (postChat (App.ofIndex ⟨true, 0⟩) (emoticonOnly 9 5) ⟨none, tiedLog, sampleUsers⟩
        quietWorld).events.map (fun e => e.target) = [.room "5", .room "9"] ∧
      ((postChat (App.ofIndex ⟨true, 0⟩) (emoticonOnly 9 5) ⟨none, tiedLog, sampleUsers⟩
        quietWorld).events.any fun e => e.reaches (onJoin freshSocket (.num 5)).rooms) =
        false ∧
      ((postChat (App.ofIndex ⟨true, 0⟩) (emoticonOnly 9 5) ⟨none, tiedLog, sampleUsers⟩
        quietWorld).events.any fun e => e.reaches (onJoin freshSocket (.str "5")).rooms) =
        true := by
  decide

end AmbulanceTracker
